import Mathlib

/-!
Verification development for the adaptive analysis pipeline of the darwin2
backend (`backend/routes/agents/statistical.py`, `backend/routes/agents/
visualization.py`, `backend/routes/chat.py`).

The Python code is shallowly embedded: pandas DataFrames become an explicit
column-major table of typed cells, the dynamically executed analysis
procedure becomes an oracle function describing its observable behaviour
(whether it raised, and what it bound to the designated output variable),
and the LLM-backed stages become oracle parameters, since their replies are
data received over the network.  Machine floats are modelled by rationals
plus explicit NaN and infinity markers where the code distinguishes them.

Modelling notes, applying throughout:
* JSON cell values are `null`, strings, integers or finite decimal numbers;
  the model uses `Cell.null`, `Cell.str`, `Cell.int`, `Cell.float`.
* pandas missing values (None, NaN, NaT, pd.NA) are all modelled by
  `Cell.null`; which concrete missing value occurs never matters to the
  claims under study, only missingness itself does.
* `pd.to_datetime` on an integer or float interprets it as nanoseconds
  since the epoch; every such value occurring in practice (for example a
  year number) lies inside the first epoch day, so the model collapses the
  epoch reading to the date 1970-01-01.  String parsing is modelled by the
  ISO `YYYY-MM-DD` shape; any other string fails to parse (becomes NaT),
  which is the behaviour relied on by the claims.
* Non-string column labels are modelled by their string rendering.
-/

namespace Darwin

/-- A single table cell.  `null` stands for any pandas missing value
(None, NaN, NaT, pd.NA); `date` is a datetime64 value by calendar day. -/
inductive Cell where
  | null
  | str (s : String)
  | int (n : Int)
  | float (q : ℚ)
  | date (y m d : Int)
deriving DecidableEq, Repr

/-- pandas column dtypes that the embedded code distinguishes. -/
inductive DType where
  | int64
  | float64
  | datetime
  | obj
deriving DecidableEq, Repr

/-- `pd.api.types.is_numeric_dtype`. -/
def DType.isNumeric : DType → Bool
  | .int64 => true
  | .float64 => true
  | _ => false

/-- One named, typed column of a DataFrame. -/
structure Column where
  name : String
  dtype : DType
  cells : List Cell
deriving DecidableEq, Repr

instance : Inhabited Column := ⟨⟨"", .obj, []⟩⟩

/-- A pandas DataFrame, column-major. -/
structure DataFrame where
  cols : List Column
deriving DecidableEq, Repr

def DataFrame.names (df : DataFrame) : List String := df.cols.map (·.name)

def DataFrame.nrows (df : DataFrame) : Nat :=
  match df.cols with
  | [] => 0
  | c :: _ => c.cells.length

/-- `df.empty`: true when either axis has length zero. -/
def DataFrame.isEmpty (df : DataFrame) : Bool :=
  df.cols.isEmpty || df.nrows == 0

def DataFrame.findCol? (df : DataFrame) (n : String) : Option Column :=
  df.cols.find? (fun c => c.name = n)

def Cell.isNull : Cell → Bool
  | .null => true
  | _ => false

def Cell.isIntC : Cell → Bool
  | .int _ => true
  | _ => false

def Cell.isFloatC : Cell → Bool
  | .float _ => true
  | _ => false

/-- Numeric value of a cell, when it has one. -/
def Cell.toRat? : Cell → Option ℚ
  | .int n => some (n : ℚ)
  | .float q => some q
  | _ => none

/-- Integer value of an integer cell. -/
def Cell.toInt? : Cell → Option ℤ
  | .int n => some n
  | _ => none

/-! String helpers.  The Lean core string functions (`trim`, `splitOn`,
`replace`, `map`) recurse on byte positions and do not reduce inside the
kernel, so the model re-implements the few string operations the Python
code uses as structural recursions over the character list. -/

/-- Python `str.strip()` on the character list. -/
def trimChars (cs : List Char) : List Char :=
  ((cs.dropWhile Char.isWhitespace).reverse.dropWhile Char.isWhitespace).reverse

def strTrim (s : String) : String := ⟨trimChars s.data⟩

/-- `str.strip() == ''`. -/
def blankStr (s : String) : Bool := (trimChars s.data).isEmpty

/-- Does `pat` occur at the head of the list? -/
def matchesAt : List Char → List Char → Bool
  | [], _ => true
  | _ :: _, [] => false
  | p :: ps, c :: cs => p = c && matchesAt ps cs

/-- Python `pat in s` on character lists. -/
def containsChars (pat : List Char) : List Char → Bool
  | [] => pat.isEmpty
  | c :: cs => matchesAt pat (c :: cs) || containsChars pat cs

/-- Split a character list at every occurrence of `sep`. -/
def splitChar (sep : Char) : List Char → List (List Char)
  | [] => [[]]
  | c :: cs =>
    if c = sep then [] :: splitChar sep cs
    else
      match splitChar sep cs with
      | [] => [[c]]
      | g :: gs => (c :: g) :: gs

/-- Python `str(value)` rendering, to the precision the claims need.
Rationals are rendered via Lean's `ℚ` printer rather than float repr;
no claim inspects the rendering of a non-integer number. -/
def Cell.pyStr : Cell → String
  | .null => "None"
  | .str s => s
  | .int n => toString n
  | .float q => toString q
  | .date y m d => toString y ++ "-" ++ toString m ++ "-" ++ toString d

/-- `val is None or str(val).strip() == ''`, the blankness test used when
dropping degenerate rows (`_create_dataframe_from_raw`). -/
def Cell.isBlank : Cell → Bool
  | .null => true
  | .str s => blankStr s
  | _ => false

/-- Raw spreadsheet input: either a row array whose first row is the
header, or a list of key/value records. -/
inductive RawTable where
  | rows (rs : List (List Cell))
  | records (rs : List (List (String × Cell)))
deriving DecidableEq, Repr

/-! ## Tabular Normalizer: `StatisticalAgent._create_dataframe_from_raw` -/

/-- `header is not None and str(header).strip() != ''`. -/
def headerOk (c : Cell) : Bool := !c.isNull && !blankStr c.pyStr

/-- Header-array form: select the indices of valid headers, keep rows no
shorter than the header, project them to the valid columns, and keep only
rows with at least one non-blank retained cell. -/
def extractRows (rs : List (List Cell)) : List String × List (List Cell) :=
  match rs with
  | [] => ([], [])
  | headers :: data =>
    let vidx := (List.range headers.length).filter (fun i => headerOk (headers.getD i .null))
    let names := vidx.map (fun i => (headers.getD i .null).pyStr)
    let kept := (data.filter (fun r => headers.length ≤ r.length)).map
      (fun r => vidx.map (fun i => r.getD i .null))
    (names, kept.filter (fun fr => fr.any (fun c => !c.isBlank)))

/-- A record models a Python dict, so the first binding of each key is
the binding; later duplicates of a key in the association list are
shadowed artifacts and are removed by this dict view. -/
def dedupKeysAux (seen : List String) : List (String × Cell) → List (String × Cell)
  | [] => []
  | kv :: rest =>
    if seen.contains kv.1 then dedupKeysAux seen rest
    else kv :: dedupKeysAux (seen ++ [kv.1]) rest

def recView (r : List (String × Cell)) : List (String × Cell) := dedupKeysAux [] r

def addKeys (acc : List String) : List String → List String
  | [] => acc
  | k :: ks => if acc.contains k then addKeys acc ks else addKeys (acc ++ [k]) ks

/-- First-seen key order of a record list (pandas column union order). -/
def recKeys (rs : List (List (String × Cell))) : List String :=
  rs.foldl (fun acc r => addKeys acc (r.map Prod.fst)) []

/-- Record form: drop records whose values are all blank, then build the
column union; missing keys become nulls. -/
def extractRecords (rs : List (List (String × Cell))) : List String × List (List Cell) :=
  let kept := (rs.map recView).filter (fun r => r.any (fun kv => !kv.2.isBlank))
  let names := recKeys kept
  (names, kept.map (fun r => names.map (fun k => (r.lookup k).getD .null)))

/-- Cells of column `j` of a row-major table. -/
def colCells (rows : List (List Cell)) (j : Nat) : List Cell :=
  rows.map (fun r => r.getD j .null)

/-- pandas dtype inference when a DataFrame is built from raw Python
values: an all-integer column is int64, a column of numbers and missing
values (with at least one number, not all integers) is float64 with NaN
for the missing entries, anything else (strings, all-missing, empty) is
object. -/
def inferDType (cells : List Cell) : DType :=
  if !cells.isEmpty && cells.all Cell.isIntC then .int64
  else if cells.any (fun c => !c.isNull) &&
          cells.all (fun c => c.isIntC || c.isFloatC || c.isNull) then .float64
  else .obj

/-- `df.replace('', pd.NA)`: exactly-empty strings become missing;
whitespace-only strings are untouched. -/
def blankToNull (c : Cell) : Cell := if c = .str "" then .null else c

/-- `df.dropna(how='all')`. -/
def dropNullRows (rows : List (List Cell)) : List (List Cell) :=
  rows.filter (fun r => r.any (fun c => !c.isNull))

/-- Indices of columns kept by `df.dropna(axis=1, how='all')`. -/
def liveCols (ncols : Nat) (rows : List (List Cell)) : List Nat :=
  (List.range ncols).filter (fun j => rows.any (fun r => !((r.getD j .null).isNull)))

/-- `df.columns.str.strip().str.replace(' ', '_')`. -/
def renameCol (n : String) : String :=
  ⟨(trimChars n.data).map (fun c => if c = ' ' then '_' else c)⟩

/-- Blank strings to null, then drop all-null rows. -/
def cleanRows (rows : List (List Cell)) : List (List Cell) :=
  dropNullRows (rows.map (fun r => r.map blankToNull))

/-- The cleaning done on a non-empty DataFrame before type coercion:
blank strings to null, drop all-null rows, drop all-null columns,
normalize column names.  Dtypes were inferred at construction and are
carried along (pandas keeps object dtype across `replace`). -/
def cleanCore (names : List String) (dtypes : List DType) (rows : List (List Cell)) :
    List String × List DType × List (List Cell) :=
  (((liveCols names.length (cleanRows rows)).map (fun j => names.getD j "")).map renameCol,
   (liveCols names.length (cleanRows rows)).map (fun j => dtypes.getD j .obj),
   (cleanRows rows).map (fun r =>
     (liveCols names.length (cleanRows rows)).map (fun j => r.getD j .null)))

/-- Digits of a numeral string, most significant first. -/
def natOfDigits (cs : List Char) : Nat :=
  cs.foldl (fun a c => 10 * a + (c.toNat - 48)) 0

/-- `x.replace('.', '', 1)` on the character list. -/
def dropFirstDot : List Char → List Char
  | [] => []
  | c :: cs => if c = '.' then cs else c :: dropFirstDot cs

/-- `isinstance(x, str) and x.replace('.', '', 1).isdigit()`:
the string, with its first dot removed, is a non-empty digit run. -/
def digitShape (s : String) : Bool :=
  let t := dropFirstDot s.data
  !t.isEmpty && t.all Char.isDigit

/-- The per-cell test of the numeric-coercion lambda, for cells of an
object-dtype column (values are plain Python objects there):
`isinstance(x, (int, float)) or (isinstance(x, str) and ...isdigit())`.
A missing value (None / pd.NA) fails both tests. -/
def numericShapedCell : Cell → Bool
  | .int _ => true
  | .float _ => true
  | .str s => digitShape s
  | _ => false

/-- The numeric-coercion guard `df[col].apply(lambda ...).all()` by dtype:
int64 columns hold np.int64 values, which are not `int` instances, so the
lambda is False; float64 columns hold np.float64 values (NaN included),
which are `float` instances, so the lambda is True; object columns are
tested cell by cell; datetime columns hold Timestamps, which fail. -/
def guardPasses (c : Column) : Bool :=
  match c.dtype with
  | .int64 => false
  | .float64 => true
  | .datetime => false
  | .obj => c.cells.all numericShapedCell

/-- `pd.to_numeric` on a string that passed `digitShape`. -/
def parseNumCell (s : String) : Cell :=
  match splitChar '.' s.data with
  | [a] => .int (natOfDigits a)
  | [a, b] => .float ((natOfDigits a : ℚ) + (natOfDigits b : ℚ) / ((10 : ℚ) ^ b.length))
  | _ => .null

/-- `pd.to_numeric(df[col], errors='coerce')` on a cell that passed the
guard (so coercion cannot fail). -/
def toNumericCell : Cell → Cell
  | .int n => .int n
  | .float q => .float q
  | .str s => parseNumCell s
  | c => c

/-- Numeric coercion of a column whose guard passed. An object column
becomes int64 when every parsed value is integral, float64 otherwise;
already-numeric columns are unchanged. -/
def coerceNumeric (c : Column) : Column :=
  match c.dtype with
  | .obj =>
    let cs := c.cells.map toNumericCell
    ⟨c.name, if cs.all Cell.isIntC then .int64 else .float64, cs⟩
  | _ => c

/-- `any(term in col.lower() for term in ['date','time','day','month','year'])`. -/
def dateNamed (n : String) : Bool :=
  ["date", "time", "day", "month", "year"].any
    (fun t => containsChars t.data (n.data.map Char.toLower))

/-- ISO `YYYY-MM-DD` parse; the conservative model of the pandas string
parser (see the file header). -/
def parseIsoDate (s : String) : Option (Int × Int × Int) :=
  match splitChar '-' s.data with
  | [y, m, d] =>
    if y.length == 4 && m.length == 2 && d.length == 2 &&
       y.all Char.isDigit && m.all Char.isDigit && d.all Char.isDigit &&
       1 ≤ natOfDigits m && natOfDigits m ≤ 12 &&
       1 ≤ natOfDigits d && natOfDigits d ≤ 31 then
      some ((natOfDigits y : Int), (natOfDigits m : Int), (natOfDigits d : Int))
    else none
  | _ => none

/-- `pd.to_datetime(cell, errors='coerce')`: unparseable strings become
NaT; numbers are read as epoch nanoseconds (collapsed to 1970-01-01,
see the file header); missing stays missing. -/
def toDatetimeCell : Cell → Cell
  | .str s =>
    match parseIsoDate s with
    | some (y, m, d) => .date y m d
    | none => .null
  | .int _ => .date 1970 1 1
  | .float _ => .date 1970 1 1
  | .null => .null
  | .date y m d => .date y m d

def coerceDatetime (c : Column) : Column :=
  ⟨c.name, .datetime, c.cells.map toDatetimeCell⟩

/-- The per-column coercion step of `_create_dataframe_from_raw`.
When a column label is duplicated, `df[col]` selects a two-column frame:
the numeric guard then aggregates to False and the datetime conversion
raises inside its `try/except: pass`, so duplicated labels are left
untouched. -/
def coerceOne (nameCount : Nat) (c : Column) : Column :=
  if nameCount ≠ 1 then c
  else if guardPasses c then coerceNumeric c
  else if dateNamed c.name then coerceDatetime c
  else c

def coerceColumns (df : DataFrame) : DataFrame :=
  ⟨df.cols.map (fun c => coerceOne (df.cols.countP (fun c2 => c2.name = c.name)) c)⟩

/-- Assemble the column-major DataFrame from names, dtypes and row-major
cells. -/
def assembleDF (names : List String) (dtypes : List DType) (rows : List (List Cell)) :
    DataFrame :=
  ⟨(List.range names.length).map (fun j =>
    ⟨names.getD j "", dtypes.getD j .obj, colCells rows j⟩)⟩

/-- Extraction (format dispatch) step of `_create_dataframe_from_raw`. -/
def extractRaw (raw : RawTable) : List String × List (List Cell) :=
  match raw with
  | .rows rs => extractRows rs
  | .records rs => extractRecords rs

/-- Dtypes inferred at DataFrame construction. -/
def inferredDTypes (names : List String) (rows : List (List Cell)) : List DType :=
  (List.range names.length).map (fun j => inferDType (colCells rows j))

/-- The cleaned (pre-coercion) stage of the normalizer: what the
DataFrame looks like right after the dropna and rename steps. -/
def cleanedStage (raw : RawTable) : List String × List DType × List (List Cell) :=
  cleanCore (extractRaw raw).1 (inferredDTypes (extractRaw raw).1 (extractRaw raw).2)
    (extractRaw raw).2

/-- `StatisticalAgent._create_dataframe_from_raw`: normalize a raw table
into a typed DataFrame.  Total by construction — the Python body wraps
everything in a `try` returning an empty frame, and no modelled step can
fail.  The final `replace([inf, -inf], nan)` is a no-op in the model
because no step can produce an infinite float from JSON input. -/
def create_dataframe_from_raw (raw : RawTable) : DataFrame :=
  if (assembleDF (extractRaw raw).1 (inferredDTypes (extractRaw raw).1 (extractRaw raw).2)
      (extractRaw raw).2).isEmpty then
    assembleDF (extractRaw raw).1 (inferredDTypes (extractRaw raw).1 (extractRaw raw).2)
      (extractRaw raw).2
  else
    coerceColumns (assembleDF (cleanedStage raw).1 (cleanedStage raw).2.1 (cleanedStage raw).2.2)

example :
    create_dataframe_from_raw (.rows [[.str "A", .str "B"], [.str "", .str "  "], [.str "1", .str "2"]]) =
      ⟨[⟨"A", .int64, [.int 1]⟩, ⟨"B", .int64, [.int 2]⟩]⟩ := by
  decide

example :
    create_dataframe_from_raw (.rows [[.str "day", .str "x"], [.str "foo", .str "1"], [.str "bar", .str "2"]]) =
      ⟨[⟨"day", .datetime, [.null, .null]⟩, ⟨"x", .int64, [.int 1, .int 2]⟩]⟩ := by
  decide

/-! ## Profiler: `StatisticalAgent._generate_data_profile`

Only the profile fields that the claims mention are modelled: the
dimensions, the column classification lists, and the correlation block.
The per-column statistics and the derived insights are independent
best-effort additions that no claim quantifies over. -/

/-- One flattened entry of the correlation matrix. The numeric value is a
real number because Pearson correlation involves a square root; a NaN
entry (zero variance or no complete observation pair) is `none`. -/
structure CorrPoint where
  x : String
  y : String
  value : Option ℝ

/-- Observation pairs for which both cells are non-missing numbers —
pandas computes correlations over pairwise-complete observations. -/
def pairedVals (xs ys : List Cell) : List (ℚ × ℚ) :=
  (xs.zip ys).filterMap (fun p =>
    match p.1.toRat?, p.2.toRat? with
    | some a, some b => some (a, b)
    | _, _ => none)

def qSum (l : List ℚ) : ℚ := l.sum

def qMean (l : List ℚ) : ℚ := qSum l / (l.length : ℚ)

/-- Centered cross-product sum `Σ (x - mean x)(y - mean y)`. -/
def sProd (ps : List (ℚ × ℚ)) : ℚ :=
  let mx := qMean (ps.map Prod.fst)
  let my := qMean (ps.map Prod.snd)
  qSum (ps.map (fun p => (p.1 - mx) * (p.2 - my)))

def selfPairs (ps : List (ℚ × ℚ)) : List (ℚ × ℚ) := ps.map (fun p => (p.1, p.1))

def sndPairs (ps : List (ℚ × ℚ)) : List (ℚ × ℚ) := ps.map (fun p => (p.2, p.2))

/-- `round(r, 3)` — ties are modelled half-up; no claim sits on a tie. -/
noncomputable def round3 (r : ℝ) : ℝ := (⌊r * 1000 + 1 / 2⌋ : ℤ) / 1000

/-- Pearson correlation of two columns as pandas `nancorr` computes it:
`cov / sqrt(var_x * var_y)` over the pairwise-complete observations,
NaN (`none`) when there are no such observations or the divisor is zero,
then rounded to three decimals (`corr().round(3)`). -/
noncomputable def pearsonR (xs ys : List Cell) : Option ℝ :=
  if pairedVals xs ys = [] ∨
      sProd (selfPairs (pairedVals xs ys)) * sProd (sndPairs (pairedVals xs ys)) = 0 then
    none
  else
    some (round3 ((sProd (pairedVals xs ys) : ℝ) /
      Real.sqrt ((sProd (selfPairs (pairedVals xs ys)) : ℝ) *
        (sProd (sndPairs (pairedVals xs ys)) : ℝ))))

def numericCols (df : DataFrame) : List Column :=
  df.cols.filter (fun c => c.dtype.isNumeric)

/-- The flattened correlation list: the two nested loops over
`corr_matrix.columns` produce one `{x, y, value}` triple for every
ordered pair of numeric columns, self-pairs included. -/
noncomputable def corrList (df : DataFrame) : List CorrPoint :=
  (numericCols df).flatMap (fun c1 =>
    (numericCols df).map (fun c2 => ⟨c1.name, c2.name, pearsonR c1.cells c2.cells⟩))

/-- The slice of the data profile that the claims quantify over. -/
structure DataProfile where
  emptyFlag : Bool
  rows : Nat
  columns : Nat
  numeric_columns : List String
  categorical_columns : List String
  datetime_columns : List String
  correlation_data : Option (List CorrPoint)

/-- `StatisticalAgent._generate_data_profile`, restricted to the fields
above.  `correlation_data` starts as None and is filled only when at
least two numeric columns exist. -/
noncomputable def generate_data_profile (df : DataFrame) : DataProfile :=
  if df.isEmpty then ⟨true, 0, 0, [], [], [], none⟩
  else
    ⟨false, df.nrows, df.cols.length,
     (numericCols df).map (·.name),
     (df.cols.filter (fun c => c.dtype = .obj)).map (·.name),
     (df.cols.filter (fun c => c.dtype = .datetime)).map (·.name),
     if 2 ≤ (numericCols df).length then some (corrList df) else none⟩

/-! ## Result Normalizer: `StatisticalAgent._make_serializable`

`PyVal` is the space of Python values the serializer can receive: JSON
primitives, float NaN and infinities, numpy int64/float64 scalars (with
their own NaN/infinity payloads), numpy arrays, pandas Series and
DataFrames (modelled through the shape their `to_dict` produces), and the
dict/list/tuple containers.  Dict keys are arbitrary values, exactly as
in Python; the serializer never touches keys. -/

inductive PyVal where
  | pyNone
  | pyInt (n : Int)
  | pyFloat (q : ℚ)
  | pyNan
  | pyInf
  | pyNegInf
  | pyStr (s : String)
  | npInt (n : Int)
  | npFloat (q : ℚ)
  | npNan
  | npInf
  | npNegInf
  | pyList (xs : List PyVal)
  | pyTuple (xs : List PyVal)
  | pyDict (xs : List (PyVal × PyVal))
  | npArray (xs : List PyVal)
  | pdSeries (xs : List (PyVal × PyVal))
  | pdFrame (cols : List (PyVal × List (PyVal × PyVal)))

mutual

/-- `np.ndarray.tolist()`: numeric numpy scalars become the corresponding
Python scalars, nested arrays become nested lists, objects inside object
arrays are kept as they are. -/
def npToPy : PyVal → PyVal
  | .npInt n => .pyInt n
  | .npFloat q => .pyFloat q
  | .npNan => .pyNan
  | .npInf => .pyInf
  | .npNegInf => .pyNegInf
  | .npArray xs => .pyList (npToPyList xs)
  | v => v

def npToPyList : List PyVal → List PyVal
  | [] => []
  | v :: vs => npToPy v :: npToPyList vs

end

/-- `DataFrame.to_dict()`: a dict of column label to (dict of row label
to cell), with the cell values returned as stored. -/
def frameDict (cols : List (PyVal × List (PyVal × PyVal))) : List (PyVal × PyVal) :=
  cols.map (fun kv => (kv.1, PyVal.pyDict kv.2))

mutual

/-- `StatisticalAgent._make_serializable`.  The branches mirror the chain
of isinstance tests in source order; the constructors are disjoint, so
the order only matters in that numpy scalars are converted by
`float(...)` before the `pd.isna` test (hence `npNan` becomes a Python
NaN, not None), while a bare Python NaN or None reaches `pd.isna` and
becomes None.  An infinity is not NA and falls to the final
numeric-coercion branch, which returns it unchanged. -/
def make_serializable : PyVal → PyVal
  | .pdFrame cols => .pyDict (frameDict cols)
  | .pdSeries xs => .pyDict xs
  | .npArray xs => .pyList (npToPyList xs)
  | .npInt n => .pyFloat n
  | .npFloat q => .pyFloat q
  | .npNan => .pyNan
  | .npInf => .pyInf
  | .npNegInf => .pyNegInf
  | .pyDict xs => .pyDict (serKVs xs)
  | .pyList xs => .pyList (serList xs)
  | .pyTuple xs => .pyList (serList xs)
  | .pyNone => .pyNone
  | .pyNan => .pyNone
  | .pyInt n => .pyFloat n
  | .pyFloat q => .pyFloat q
  | .pyInf => .pyInf
  | .pyNegInf => .pyNegInf
  | .pyStr s => .pyStr s

def serList : List PyVal → List PyVal
  | [] => []
  | v :: vs => make_serializable v :: serList vs

def serKVs : List (PyVal × PyVal) → List (PyVal × PyVal)
  | [] => []
  | (k, v) :: vs => (k, make_serializable v) :: serKVs vs

end

mutual

/-- The JSON-safety predicate the specification asserts of the
serializer output: no NaN, no positive or negative infinity, and no
non-primitive object (numpy scalar or array, pandas object) anywhere in
the tree, keys included. -/
def jsonSafe : PyVal → Bool
  | .pyNone | .pyInt _ | .pyFloat _ | .pyStr _ => true
  | .pyNan | .pyInf | .pyNegInf => false
  | .npInt _ | .npFloat _ | .npNan | .npInf | .npNegInf => false
  | .npArray _ | .pdSeries _ | .pdFrame _ => false
  | .pyList xs | .pyTuple xs => jsonSafeList xs
  | .pyDict xs => jsonSafeKVs xs

def jsonSafeList : List PyVal → Bool
  | [] => true
  | v :: vs => jsonSafe v && jsonSafeList vs

def jsonSafeKVs : List (PyVal × PyVal) → Bool
  | [] => true
  | (k, v) :: vs => jsonSafe k && jsonSafe v && jsonSafeKVs vs

end

mutual

/-- Values built without numpy or pandas wrappers: plain Python nesting
of dicts, lists, tuples and scalars (NaN and infinities allowed). -/
def plainVal : PyVal → Bool
  | .pyNone | .pyInt _ | .pyFloat _ | .pyNan | .pyInf | .pyNegInf | .pyStr _ => true
  | .npInt _ | .npFloat _ | .npNan | .npInf | .npNegInf => false
  | .npArray _ | .pdSeries _ | .pdFrame _ => false
  | .pyList xs | .pyTuple xs => plainList xs
  | .pyDict xs => plainKVs xs

def plainList : List PyVal → Bool
  | [] => true
  | v :: vs => plainVal v && plainList vs

def plainKVs : List (PyVal × PyVal) → Bool
  | [] => true
  | (k, v) :: vs => plainVal k && plainVal v && plainKVs vs

end

mutual

/-- No NaN anywhere in the tree (Python or numpy flavour). -/
def noNan : PyVal → Bool
  | .pyNan | .npNan => false
  | .pyList xs | .pyTuple xs | .npArray xs => noNanList xs
  | .pyDict xs | .pdSeries xs => noNanKVs xs
  | .pdFrame cols => noNanFrame cols
  | _ => true

def noNanList : List PyVal → Bool
  | [] => true
  | v :: vs => noNan v && noNanList vs

def noNanKVs : List (PyVal × PyVal) → Bool
  | [] => true
  | (k, v) :: vs => noNan k && noNan v && noNanKVs vs

def noNanFrame : List (PyVal × List (PyVal × PyVal)) → Bool
  | [] => true
  | (k, col) :: cs => noNan k && noNanKVs col && noNanFrame cs

end

mutual

/-- The inputs on which the serializer actually delivers a JSON-safe
tree: plain Python values with no infinity anywhere, and no NaN inside a
dict-key position (the serializer leaves keys untouched). -/
def serializableInput : PyVal → Bool
  | .pyNone | .pyInt _ | .pyFloat _ | .pyNan | .pyStr _ => true
  | .pyInf | .pyNegInf => false
  | .npInt _ | .npFloat _ | .npNan | .npInf | .npNegInf => false
  | .npArray _ | .pdSeries _ | .pdFrame _ => false
  | .pyList xs | .pyTuple xs => serializableInputList xs
  | .pyDict xs => serializableInputKVs xs

def serializableInputList : List PyVal → Bool
  | [] => true
  | v :: vs => serializableInput v && serializableInputList vs

def serializableInputKVs : List (PyVal × PyVal) → Bool
  | [] => true
  | (k, v) :: vs =>
    (noNan k && serializableInput k) && serializableInput v && serializableInputKVs vs

end

/-! ## `safe_groupby_agg` (the sandbox aggregation helper)

The reducers the synthesized code is told to use are `sum`, `mean` and
`count`; the model covers those.  Group keys follow pandas `groupby`
semantics: rows with a missing key are dropped; the model lists groups in
first-occurrence order (pandas sorts keys — no claim depends on group
order, and sorting mixed-type keys would raise, which the `try/except`
of the helper converts to None just like any other failure). -/

inductive AggOp where
  | sum
  | mean
  | count
deriving DecidableEq, Repr

/-- Apply a reducer to the cells of one group of one column, as pandas
does: `count` counts non-missing values; `sum` adds numbers (or
concatenates an all-string object column, as Python `+` would) and is 0
on an empty set; `mean` averages numbers and is NaN when no value is
present, raising (error) on non-numeric values. -/
def aggOpApply (op : AggOp) (cells : List Cell) : Except Unit Cell :=
  let vals := cells.filter (fun c => !c.isNull)
  match op with
  | .count => .ok (.int vals.length)
  | .sum =>
    if vals.all Cell.isIntC then
      .ok (.int (vals.filterMap Cell.toInt?).sum)
    else if vals.all (fun c => c.isIntC || c.isFloatC) then
      .ok (.float (qSum (vals.filterMap Cell.toRat?)))
    else if vals.all (fun c => match c with | .str _ => true | _ => false) then
      .ok (.str (String.join (vals.map Cell.pyStr)))
    else .error ()
  | .mean =>
    if vals.all (fun c => c.isIntC || c.isFloatC) then
      if vals.isEmpty then .ok .null
      else .ok (.float (qMean (vals.filterMap Cell.toRat?)))
    else .error ()

/-- The key of row `i` under the grouping columns. -/
def keyAt (df : DataFrame) (gcols : List String) (i : Nat) : List Cell :=
  gcols.map (fun g => ((df.findCol? g).map (fun c => c.cells.getD i .null)).getD .null)

/-- Distinct group keys in first-occurrence order, rows with a missing
key component dropped (`groupby(..., dropna=True)`, the default). -/
def groupKeys (df : DataFrame) (gcols : List String) : List (List Cell) :=
  ((((List.range df.nrows).map (keyAt df gcols)).filter
    (fun k => k.all (fun c => !c.isNull)))).eraseDups

/-- Row indices belonging to a group key. -/
def groupMembers (df : DataFrame) (gcols : List String) (k : List Cell) : List Nat :=
  (List.range df.nrows).filter (fun i => keyAt df gcols i = k)

/-- Collect a list of fallible results, stopping at the first error
(structural recursion, so proofs and the kernel can unfold it). -/
def collectE {α β γ : Type} (f : α → Except γ β) : List α → Except γ (List β)
  | [] => .ok []
  | a :: rest =>
    match f a, collectE f rest with
    | .ok b, .ok bs => .ok (b :: bs)
    | .error e, _ => .error e
    | .ok _, .error e => .error e

/-- The aggregated column produced for one entry of the aggregation map. -/
def aggColumnFor (df : DataFrame) (gcols : List String) (keys : List (List Cell))
    (a : String × AggOp) : Except Unit Column :=
  match collectE (fun k =>
      aggOpApply a.2 ((groupMembers df gcols k).map
        (fun i => (((df.findCol? a.1).map (·.cells)).getD []).getD i .null))) keys with
  | .ok cells => .ok (Column.mk a.1 (inferDType cells) cells)
  | .error e => .error e

/-- `dataframe.groupby(group_cols).agg(agg_dict).reset_index()`.
Fails (raises in Python) when the grouping column list is empty
(ValueError: No group keys passed), when a grouping column does not
exist (KeyError) or its label is bound to more than one column of the
frame (ValueError: Grouper not 1-dimensional), when an aggregated
column is missing from the frame the groupby exposes — pandas excludes
the grouping columns from it, so a reducer that targets a grouping
column raises as well (KeyError: Column(s) do not exist at the dict
validation, or `cannot insert ..., already exists` at `reset_index` in
older pandas) — or when a reducer is applied to values it cannot
reduce.  A label duplicated among the aggregated (non-grouping)
columns is resolved to its first occurrence here, a corner whose pandas
behaviour is version-dependent; the success clause of the theorem
below is therefore restricted to uniquely-bound reducer columns.  On
success the group columns come first as ordinary columns
(`reset_index`), followed by one column per aggregation entry: a flat,
single-level result. -/
def groupbyAgg (df : DataFrame) (gcols : List String) (aggs : List (String × AggOp)) :
    Except Unit DataFrame :=
  if gcols.isEmpty then .error ()
  else if gcols.any (fun g => (df.findCol? g).isNone) then .error ()
  else if gcols.any (fun g => 2 ≤ df.cols.countP (fun c => c.name = g)) then .error ()
  else if aggs.any (fun a => gcols.any (fun g => a.1 = g) || (df.findCol? a.1).isNone) then
    .error ()
  else
    match collectE (aggColumnFor df gcols (groupKeys df gcols)) aggs with
    | .ok aggCols =>
      .ok ⟨(List.range gcols.length).map (fun m =>
        Column.mk (gcols.getD m "") (((df.findCol? (gcols.getD m "")).map (·.dtype)).getD .obj)
          ((groupKeys df gcols).map (fun k => k.getD m .null))) ++ aggCols⟩
    | .error e => .error e

/-- `.dt.year` (and month, day): the date component as a number, NaT
becoming NaN. -/
def datePart (f : Int → Int → Int → Int) : Cell → Cell
  | .date y m d => .int (f y m d)
  | _ => .null

/-- The derived convenience columns added for one datetime column. -/
def datePartCols (c : Column) : List Column :=
  if c.dtype = .datetime then
    [⟨c.name ++ "_year", if c.cells.any Cell.isNull then .float64 else .int64,
      c.cells.map (datePart (fun y _ _ => y))⟩,
     ⟨c.name ++ "_month", if c.cells.any Cell.isNull then .float64 else .int64,
      c.cells.map (datePart (fun _ m _ => m))⟩,
     ⟨c.name ++ "_day", if c.cells.any Cell.isNull then .float64 else .int64,
      c.cells.map (datePart (fun _ _ d => d))⟩]
  else []

/-- Augment the working copy with `<col>_year`, `<col>_month`,
`<col>_day` for every datetime column, appended in iteration order. -/
def augment_date_parts (df : DataFrame) : DataFrame :=
  ⟨df.cols ++ df.cols.flatMap datePartCols⟩

/-- The observable behaviour of one run of the synthesized procedure:
either it raised (recording what it had bound to `analysis_result`
before raising, so that the claims can talk about that situation), or it
completed with `analysis_result` either bound or absent. -/
inductive ProcOutcome where
  | raised (msg : String) (assigned : Option PyVal)
  | completed (assigned : Option PyVal)

def ProcOutcome.throws : ProcOutcome → Bool
  | .raised _ _ => true
  | _ => false

def ProcOutcome.output : ProcOutcome → Option PyVal
  | .raised _ a => a
  | .completed a => a

/-- The error the sandbox surfaces (an HTTPException whose detail holds
the message and a traceback; the traceback is abstracted away). -/
structure ExecError where
  message : String
deriving DecidableEq, Repr

/-- `StatisticalAgent._execute_analysis`: copy the table, add the date
part columns, run the procedure, and read `analysis_result` from the
scope.  The whole body sits in one `try`, so a procedure that raises
reaches the handler no matter what it had already assigned; a procedure
that completes without binding `analysis_result` raises the ValueError
that the same handler converts. -/
def execute_analysis (procSem : DataFrame → ProcOutcome) (df : DataFrame) :
    Except ExecError PyVal :=
  let working := augment_date_parts df
  match procSem working with
  | .raised msg _ => .error ⟨msg⟩
  | .completed none => .error ⟨"No analysis_result found in execution environment"⟩
  | .completed (some v) => .ok (make_serializable v)

/-- The same sandbox step with the Python heap made explicit: tables live
in a store, the caller passes a pointer `p`, and `df.copy()` allocates
the working table at a fresh slot.  The procedure receives only the
working copy and returns the state it leaves that copy in. -/
def execute_analysis_heap (store : List DataFrame) (p : Nat)
    (procSem : DataFrame → ProcOutcome × DataFrame) :
    List DataFrame × Except ExecError PyVal :=
  let df := store.getD p ⟨[]⟩
  let working := augment_date_parts df
  let r := procSem working
  (store ++ [r.2],
   match r.1 with
   | .raised msg _ => .error ⟨msg⟩
   | .completed none => .error ⟨"No analysis_result found in execution environment"⟩
   | .completed (some v) => .ok (make_serializable v))

/-! ## Pipeline Controller: `StatisticalAgent.analyze`

The three LLM-backed stages (`_create_statistical_analysis`,
`_generate_visualizations` / `_generate_tables`, and
`_generate_interpretation`) and the meaning of executing a procedure
text are oracle parameters: their behaviour is network input.  Any
exception they raise is modelled as an `Except.error`; the controller
catches every exception in one handler and re-raises it as an HTTP 500
(including the HTTP 400 it raised itself for an empty table, which its
own `except Exception` intercepts). -/

structure AnalyzeRequest where
  relevantData : List (String × RawTable)
  activeSheetId : String
  explicitTargetSheetId : Option String
  message : String

structure AnalysisPackage where
  analysis_type : Option String
  implementation : Option String
  interpretation_guide : Option String

structure HTTPError where
  status : Nat
  detail : String
deriving DecidableEq, Repr

structure Metadata where
  rows_analyzed : Nat
  columns_analyzed : Nat
  analysis_type : Option String
  visualization_count : Nat
  table_count : Nat

structure AnalyzeResponse where
  text : String
  analysisType : String
  chartConfig : List PyVal
  tableConfig : List PyVal
  sourceSheetId : String
  targetSheetId : String
  operation : String
  metadata : Metadata

/-- The raw table `analyze` selects: the first `relevantData` sheet, or
the active sheet (hence no data) when `relevantData` is empty. -/
def primarySource (req : AnalyzeRequest) : RawTable :=
  (req.relevantData.lookup ((req.relevantData.head?.map Prod.fst).getD req.activeSheetId)).getD
    (.rows [])

/-- The presentation stages of `analyze`: visualizations, tables, and
the interpretation, each a network call that may raise, then the final
response assembly. -/
def analyzePresent (genViz genTables : PyVal → DataFrame → Except String (List PyVal))
    (genInterp : String → String → PyVal → String → Except String String)
    (req : AnalyzeRequest) (df : DataFrame) (pkg : AnalysisPackage) (result : PyVal) :
    Except String AnalyzeResponse :=
  match genViz result df with
  | .error e => .error e
  | .ok charts =>
    match genTables result df with
    | .error e => .error e
    | .ok tables =>
      match genInterp req.message (pkg.analysis_type.getD "Statistical Analysis")
          result (pkg.interpretation_guide.getD "") with
      | .error e => .error e
      | .ok text =>
        .ok ⟨text, pkg.analysis_type.getD "Statistical Analysis", charts, tables,
             (req.relevantData.head?.map Prod.fst).getD req.activeSheetId,
             req.explicitTargetSheetId.getD req.activeSheetId, "statistical",
             ⟨df.nrows, df.cols.length, pkg.analysis_type, charts.length, tables.length⟩⟩

/-- The execution stage of `analyze`: read `implementation` from the
package (a KeyError when absent) and run it in the sandbox. -/
def analyzeExec (procSem : String → DataFrame → ProcOutcome)
    (genViz genTables : PyVal → DataFrame → Except String (List PyVal))
    (genInterp : String → String → PyVal → String → Except String String)
    (req : AnalyzeRequest) (df : DataFrame) (pkg : AnalysisPackage) :
    Except String AnalyzeResponse :=
  match pkg.implementation with
  | none => .error "KeyError: implementation"
  | some impl =>
    match execute_analysis (procSem impl) df with
    | .error e => .error e.message
    | .ok result => analyzePresent genViz genTables genInterp req df pkg result

/-- Everything inside the `try` of `analyze`. -/
noncomputable def analyzeInner (procSem : String → DataFrame → ProcOutcome)
    (synth : String → DataFrame → DataProfile → Except String AnalysisPackage)
    (genViz genTables : PyVal → DataFrame → Except String (List PyVal))
    (genInterp : String → String → PyVal → String → Except String String)
    (req : AnalyzeRequest) : Except String AnalyzeResponse :=
  if (create_dataframe_from_raw (primarySource req)).isEmpty then
    .error "Empty dataset provided for analysis"
  else
    match synth req.message (create_dataframe_from_raw (primarySource req))
        (generate_data_profile (create_dataframe_from_raw (primarySource req))) with
    | .error e => .error e
    | .ok pkg =>
      analyzeExec procSem genViz genTables genInterp req
        (create_dataframe_from_raw (primarySource req)) pkg

/-- `StatisticalAgent.analyze`: the outer `except Exception` converts
any raised error — the empty-table HTTP 400 included — into an HTTP 500
carrying the message. -/
noncomputable def analyze (procSem : String → DataFrame → ProcOutcome)
    (synth : String → DataFrame → DataProfile → Except String AnalysisPackage)
    (genViz genTables : PyVal → DataFrame → Except String (List PyVal))
    (genInterp : String → String → PyVal → String → Except String String)
    (req : AnalyzeRequest) : Except HTTPError AnalyzeResponse :=
  match analyzeInner procSem synth genViz genTables genInterp req with
  | .ok r => .ok r
  | .error m => .error ⟨500, m⟩

/-! ## Visualization data transform:
`DataVizualizationAgent.transform_data_for_visualization`

The whole body sits in one `try` whose handler fabricates a fixed
21-point series.  The body is modelled as an `Except`: inside the
modelled input space the exception points are DataFrame construction
from shape-mismatched rows and sorting a mixed-type column (the inner
grouping `try` returns `[]` on its own and never reaches the outer
handler). -/

structure SortCfg where
  sortBy : Option String
  order : String
deriving DecidableEq, Repr

structure DataTransformation where
  groupBy : Option (List String)
  aggregate : List (String × String)
  sort : Option SortCfg
deriving DecidableEq, Repr

structure VizAnalysis where
  xAxisColumn : Option String
  yAxisColumns : List String
  dataTransformation : DataTransformation
deriving DecidableEq, Repr

/-- Rows shorter than the longest row are padded with missing values, as
numpy does when assembling a ragged list of lists. -/
def padTo (n : Nat) (r : List Cell) : List Cell := r ++ List.replicate (n - r.length) .null

/-- `pd.DataFrame(raw_data[1:], columns=headers)` and `pd.DataFrame(records)`:
`none` models the `return []` taken on empty input; construction raises
when the longest data row disagrees with the header width. -/
def vizMakeDF : RawTable → Except String (Option DataFrame)
  | .rows [] => .ok none
  | .records [] => .ok none
  | .rows (headers :: data) =>
    let names := headers.map Cell.pyStr
    if data.isEmpty then .ok (some (assembleDF names (inferredDTypes names []) []))
    else
      let wid := data.foldl (fun m r => max m r.length) 0
      if wid ≠ names.length then .error "DataFrame construction failed"
      else
        let rows := data.map (padTo wid)
        .ok (some (assembleDF names (inferredDTypes names rows) rows))
  | .records rs =>
    let names := recKeys rs
    let rows := rs.map (fun r => names.map (fun k => (r.lookup k).getD .null))
    .ok (some (assembleDF names (inferredDTypes names rows) rows))

/-- `pd.to_numeric(df[col], errors='coerce')` on an arbitrary column:
numbers survive, numeric-shaped strings parse, everything else is NaN. -/
def vizNumCoerce (c : Column) : Column :=
  let cs := c.cells.map (fun cell =>
    match cell with
    | .int n => Cell.int n
    | .float q => Cell.float q
    | .str s => if digitShape s then parseNumCell s else .null
    | _ => .null)
  ⟨c.name, inferDType cs, cs⟩

def coerceColByName (df : DataFrame) (n : String) : DataFrame :=
  ⟨df.cols.map (fun c => if c.name = n then vizNumCoerce c else c)⟩

def cellAt (df : DataFrame) (n : String) (i : Nat) : Cell :=
  ((df.findCol? n).map (fun c => c.cells.getD i .null)).getD .null

def aggOpOfString (s : String) : AggOp :=
  if s = "sum" then .sum
  else if s = "avg" then .mean
  else if s = "count" then .count
  else .sum

def strLower (s : String) : String := ⟨s.data.map Char.toLower⟩

def strLeB : List Char → List Char → Bool
  | [], _ => true
  | _ :: _, [] => false
  | x :: xs, y :: ys => if x = y then strLeB xs ys else decide (x < y)

def cellIsStr : Cell → Bool
  | .str _ => true
  | _ => false

/-- Comparison used by `sort_values`; only value pairs Python can order
are meaningful, the callers check comparability first. -/
def cellLeB (a b : Cell) : Bool :=
  match a.toRat?, b.toRat? with
  | some x, some y => decide (x ≤ y)
  | _, _ =>
    match a, b with
    | .str x, .str y => strLeB x.data y.data
    | _, _ => false

def insertLe (le : Nat → Nat → Bool) (a : Nat) : List Nat → List Nat
  | [] => [a]
  | b :: bs => if le a b then a :: b :: bs else b :: insertLe le a bs

def isortBy (le : Nat → Nat → Bool) : List Nat → List Nat
  | [] => []
  | a :: rest => insertLe le a (isortBy le rest)

def dfReindex (df : DataFrame) (idxs : List Nat) : DataFrame :=
  ⟨df.cols.map (fun c => ⟨c.name, c.dtype, idxs.map (fun i => c.cells.getD i .null)⟩)⟩

/-- `sort_values(by=s, ascending=asc)`: missing keys go last, a column
mixing numbers and strings raises TypeError. -/
def dfSortByCol (df : DataFrame) (s : String) (asc : Bool) : Except String DataFrame :=
  let idxs := List.range df.nrows
  let nn := idxs.filter (fun i => !(cellAt df s i).isNull)
  let nulls := idxs.filter (fun i => (cellAt df s i).isNull)
  if nn.all (fun i => (cellAt df s i).isIntC || (cellAt df s i).isFloatC) ||
     nn.all (fun i => cellIsStr (cellAt df s i)) then
    let le := fun i j =>
      if asc then cellLeB (cellAt df s i) (cellAt df s j)
      else cellLeB (cellAt df s j) (cellAt df s i)
    .ok (dfReindex df (isortBy le nn ++ nulls))
  else .error "sort comparison failed"

/-- Lines 137-146: sort the grouped frame when a sort key is configured
and present. -/
def vizSort (df : DataFrame) (cfg : Option SortCfg) : Except String DataFrame :=
  match cfg with
  | none => .ok df
  | some c =>
    match c.sortBy with
    | none => .ok df
    | some s =>
      if df.names.contains s then dfSortByCol df s (strLower c.order ≠ "descending")
      else .ok df

/-- The grouping branch (lines 91-162): return `[]` on missing grouping
columns, coerce each present y column to numeric while building the
aggregation dict (defaulting to sum), group — any grouping failure is
caught locally and yields `[]` — optionally sort, then format each
grouped row into a name/values point, missing aggregates rendered 0. -/
def vizGroupBranch (df0 : DataFrame) (ycols : List String)
    (aggCfg : List (String × String)) (sortCfg : Option SortCfg) (g : List String) :
    Except String (List (List (String × Cell))) :=
  if (g.filter (fun c => !df0.names.contains c)) ≠ [] then .ok []
  else
    let built := ycols.foldl (fun (acc : DataFrame × List (String × AggOp)) col =>
      if !acc.1.names.contains col then acc
      else
        let d := coerceColByName acc.1 col
        if (acc.2.lookup col).isSome then (d, acc.2)
        else (d, acc.2 ++ [(col, aggOpOfString ((aggCfg.lookup col).getD "sum"))])) (df0, [])
    match groupbyAgg built.1 g built.2 with
    | .error _ => .ok []
    | .ok grouped0 =>
      match vizSort grouped0 sortCfg with
      | .error e => .error e
      | .ok grouped =>
        .ok ((List.range grouped.nrows).map (fun i =>
          ("name", Cell.str (String.intercalate " - "
            (g.map (fun c => (cellAt grouped c i).pyStr)))) ::
          built.2.map (fun a =>
            let cell := cellAt grouped a.1 i
            if cell.isNull then (a.1, Cell.int 0)
            else (a.1, Cell.float ((cell.toRat?).getD 0)))))

/-- The direct-mapping branch for tables of at most 50 rows (lines
164-183): skip rows with a missing x value, keep the raw x cell as the
name, add each y value that is present, non-empty and float-convertible,
silently skipping the rest. -/
def vizSmall (df : DataFrame) (x : Option String) (ycols : List String) :
    List (List (String × Cell)) :=
  (List.range df.nrows).filterMap (fun i =>
    let xc := (x.bind (fun xn => (df.findCol? xn).map (fun c => c.cells.getD i .null))).getD .null
    if xc.isNull then none
    else some (("name", xc) :: ycols.filterMap (fun ycol =>
      match df.findCol? ycol with
      | none => none
      | some c =>
        match c.cells.getD i .null with
        | .int n => some (ycol, Cell.float (n : ℚ))
        | .float q => some (ycol, Cell.float q)
        | .str s =>
          if s = "" then none
          else if digitShape s then
            some (ycol, Cell.float (((parseNumCell s).toRat?).getD 0))
          else none
        | _ => none)))

/-- The sampling branch (lines 185-208): coerce the present y columns to
numeric, take every `step`-th of the first 50 sampled rows, name missing
x values "Unknown", and render missing y values as 0. -/
def vizSampling (df0 : DataFrame) (x : Option String) (ycols : List String) :
    List (List (String × Cell)) :=
  let df := ycols.foldl (fun d col => if d.names.contains col then coerceColByName d col else d) df0
  let step := max 1 (df.nrows / 50)
  let idxs := ((List.range df.nrows).filter (fun i => i % step = 0)).take 50
  idxs.map (fun i =>
    let xc := (x.bind (fun xn => (df.findCol? xn).map (fun c => c.cells.getD i .null))).getD .null
    ("name", if xc.isNull then Cell.str "Unknown" else xc) ::
    ycols.map (fun ycol =>
      if df.names.contains ycol && !(cellAt df ycol i).isNull then
        (ycol, Cell.float (((cellAt df ycol i).toRat?).getD 0))
      else (ycol, Cell.int 0)))

/-- Everything inside the outer `try` of
`transform_data_for_visualization`. -/
def transform_body (raw : RawTable) (analysis : VizAnalysis) :
    Except String (List (List (String × Cell))) :=
  match vizMakeDF raw with
  | .error e => .error e
  | .ok none => .ok []
  | .ok (some df) =>
    let nonGroup : Except String (List (List (String × Cell))) :=
      if df.nrows ≤ 50 then .ok (vizSmall df analysis.xAxisColumn analysis.yAxisColumns)
      else .ok (vizSampling df analysis.xAxisColumn analysis.yAxisColumns)
    match analysis.dataTransformation.groupBy with
    | some g =>
      if g.isEmpty then nonGroup
      else vizGroupBranch df analysis.yAxisColumns analysis.dataTransformation.aggregate
        analysis.dataTransformation.sort g
    | none => nonGroup

/-- The fabricated series the exception handler returns:
`{'name': str(2000 + i), 'value': float(i * 2 + 10)} for i in range(21)`. -/
def vizFallback : List (List (String × Cell)) :=
  (List.range 21).map (fun i =>
    [("name", Cell.str (toString ((2000 + i : Nat)))),
     ("value", Cell.float ((i * 2 + 10 : Nat) : ℚ))])

/-- `DataVizualizationAgent.transform_data_for_visualization`. -/
def transform_data_for_visualization (raw : RawTable) (analysis : VizAnalysis) :
    List (List (String × Cell)) :=
  match transform_body raw analysis with
  | .ok r => r
  | .error _ => vizFallback

/-! ## Predicates and concrete instances used by the claim theorems -/

/-- Did the sandbox surface an error? -/
def execFails : Except ExecError PyVal → Bool
  | .error _ => true
  | .ok _ => false

/-- No row of a row-major table is entirely null. -/
def noAllNullRow (rows : List (List Cell)) : Bool :=
  rows.all (fun r => r.any (fun c => !c.isNull))

/-- No column (of the given width) of a row-major table is entirely
null. -/
def noAllNullColAt (ncols : Nat) (rows : List (List Cell)) : Bool :=
  (List.range ncols).all (fun j => rows.any (fun r => !((r.getD j .null).isNull)))

/-- A DataFrame owns a nonempty column whose cells are all null. -/
def dfHasAllNullCol (df : DataFrame) : Bool :=
  df.cols.any (fun c => !c.cells.isEmpty && c.cells.all Cell.isNull)

/-- A DataFrame owns a row whose cells are all null. -/
def dfHasAllNullRow (df : DataFrame) : Bool :=
  (List.range df.nrows).any (fun i => df.cols.all (fun c => (c.cells.getD i .null).isNull))

/-- The spec-side notion of a numeric-shaped cell: a numeric literal or a
digit string (used to state what C6 claims about non-null values). -/
def specNumericShaped (c : Cell) : Bool :=
  match c with
  | .int _ => true
  | .float _ => true
  | .str s => digitShape s
  | _ => false

/-- A one-column, one-row table shared by several witnesses. -/
def dfSmall : DataFrame := ⟨[⟨"A", .int64, [.int 1]⟩]⟩

/-- A procedure that assigns the output variable and then raises. -/
def procC2 : DataFrame → ProcOutcome := fun _ => .raised "boom" (some (.pyInt 1))

/-- A procedure that completes normally, leaving its table unchanged. -/
def procHeapOk : DataFrame → ProcOutcome × DataFrame :=
  fun d => (.completed (some (.pyInt 1)), d)

/-- Two numeric columns, the first constant (zero variance). -/
def dfConstCol : DataFrame :=
  ⟨[⟨"A", .int64, [.int 5, .int 5]⟩, ⟨"B", .int64, [.int 1, .int 2]⟩]⟩

/-- Two numeric columns with nonzero variance. -/
def dfTwoNum : DataFrame :=
  ⟨[⟨"A", .int64, [.int 1, .int 2]⟩, ⟨"B", .int64, [.int 1, .int 3]⟩]⟩

/-- An always-raising procedure semantics. -/
def procSemRaise : String → DataFrame → ProcOutcome := fun _ _ => .raised "boom" none

/-- A synthesizer oracle returning a fixed well-formed package. -/
def synthFixed : String → DataFrame → DataProfile → Except String AnalysisPackage :=
  fun _ _ _ => .ok ⟨some "descriptive", some "raise RuntimeError", some "guide"⟩

def oracleVizNone : PyVal → DataFrame → Except String (List PyVal) := fun _ _ => .ok []

def oracleTablesNone : PyVal → DataFrame → Except String (List PyVal) := fun _ _ => .ok []

def oracleInterpFixed : String → String → PyVal → String → Except String String :=
  fun _ _ _ _ => .ok "Here is an insight."

/-- A request carrying a one-column, one-row sheet. -/
def reqOneRow : AnalyzeRequest :=
  ⟨[("sheet1", .rows [[.str "A"], [.str "x"]])], "sheet1", none, "analyze this"⟩

/-- Raw visualization input whose data row is wider than its header:
`pd.DataFrame` raises on it. -/
def vizRawBad : RawTable := .rows [[.str "a", .str "b"], [.int 1, .int 2, .int 3]]

def vizAnalysisW : VizAnalysis := ⟨some "a", ["b"], ⟨none, [], none⟩⟩

/-! ## Claim C3 — Result Normalizer output safety -/

mutual

/-- A dict key with no NaN that qualifies as serializer input is already
JSON-safe (the serializer copies keys without touching them). -/
theorem keySafe (v : PyVal) (h1 : noNan v = true) (h2 : serializableInput v = true) :
    jsonSafe v = true := by
  cases v with
  | pyList xs =>
    simpa [jsonSafe] using
      keySafeList xs (by simpa [noNan] using h1) (by simpa [serializableInput] using h2)
  | pyTuple xs =>
    simpa [jsonSafe] using
      keySafeList xs (by simpa [noNan] using h1) (by simpa [serializableInput] using h2)
  | pyDict xs =>
    simpa [jsonSafe] using
      keySafeKVs xs (by simpa [noNan] using h1) (by simpa [serializableInput] using h2)
  | pyNone => rfl
  | pyInt n => rfl
  | pyFloat q => rfl
  | pyStr s => rfl
  | pyNan => simp [noNan] at h1
  | pyInf => simp [serializableInput] at h2
  | pyNegInf => simp [serializableInput] at h2
  | npInt n => simp [serializableInput] at h2
  | npFloat q => simp [serializableInput] at h2
  | npNan => simp [serializableInput] at h2
  | npInf => simp [serializableInput] at h2
  | npNegInf => simp [serializableInput] at h2
  | npArray xs => simp [serializableInput] at h2
  | pdSeries xs => simp [serializableInput] at h2
  | pdFrame cols => simp [serializableInput] at h2

theorem keySafeList (xs : List PyVal) (h1 : noNanList xs = true)
    (h2 : serializableInputList xs = true) : jsonSafeList xs = true := by
  cases xs with
  | nil => rfl
  | cons v vs =>
    simp only [noNanList, Bool.and_eq_true] at h1
    simp only [serializableInputList, Bool.and_eq_true] at h2
    simp only [jsonSafeList, Bool.and_eq_true]
    exact ⟨keySafe v h1.1 h2.1, keySafeList vs h1.2 h2.2⟩

theorem keySafeKVs (xs : List (PyVal × PyVal)) (h1 : noNanKVs xs = true)
    (h2 : serializableInputKVs xs = true) : jsonSafeKVs xs = true := by
  cases xs with
  | nil => rfl
  | cons kv vs =>
    obtain ⟨k, v⟩ := kv
    simp only [noNanKVs, Bool.and_eq_true] at h1
    simp only [serializableInputKVs, Bool.and_eq_true] at h2
    simp only [jsonSafeKVs, Bool.and_eq_true]
    exact ⟨⟨keySafe k h1.1.1 h2.1.1.2, keySafe v h1.1.2 h2.1.2⟩, keySafeKVs vs h1.2 h2.2⟩

end

mutual

theorem serSafeVal (v : PyVal) (h : serializableInput v = true) :
    jsonSafe (make_serializable v) = true := by
  cases v with
  | pyList xs =>
    simpa [make_serializable, jsonSafe] using
      serSafeList xs (by simpa [serializableInput] using h)
  | pyTuple xs =>
    simpa [make_serializable, jsonSafe] using
      serSafeList xs (by simpa [serializableInput] using h)
  | pyDict xs =>
    simpa [make_serializable, jsonSafe] using
      serSafeKVs xs (by simpa [serializableInput] using h)
  | pyNone => rfl
  | pyInt n => rfl
  | pyFloat q => rfl
  | pyNan => rfl
  | pyStr s => rfl
  | pyInf => simp [serializableInput] at h
  | pyNegInf => simp [serializableInput] at h
  | npInt n => simp [serializableInput] at h
  | npFloat q => simp [serializableInput] at h
  | npNan => simp [serializableInput] at h
  | npInf => simp [serializableInput] at h
  | npNegInf => simp [serializableInput] at h
  | npArray xs => simp [serializableInput] at h
  | pdSeries xs => simp [serializableInput] at h
  | pdFrame cols => simp [serializableInput] at h

theorem serSafeList (xs : List PyVal) (h : serializableInputList xs = true) :
    jsonSafeList (serList xs) = true := by
  cases xs with
  | nil => rfl
  | cons v vs =>
    simp only [serializableInputList, Bool.and_eq_true] at h
    simp only [serList, jsonSafeList, Bool.and_eq_true]
    exact ⟨serSafeVal v h.1, serSafeList vs h.2⟩

theorem serSafeKVs (xs : List (PyVal × PyVal)) (h : serializableInputKVs xs = true) :
    jsonSafeKVs (serKVs xs) = true := by
  cases xs with
  | nil => rfl
  | cons kv vs =>
    obtain ⟨k, v⟩ := kv
    simp only [serializableInputKVs, Bool.and_eq_true] at h
    simp only [serKVs, jsonSafeKVs, Bool.and_eq_true]
    exact ⟨⟨keySafe k h.1.1.1 h.1.1.2, serSafeVal v h.1.2⟩, serSafeKVs vs h.2⟩

end

/-- C3 (corrected): the claim asserts that `_make_serializable` always
returns a JSON-safe tree — no NaN, no infinities, no non-primitive
objects.  That is false: an infinity passes `pd.isna` untouched and is
returned by the numeric-coercion branch unchanged.  This theorem proves
the amended claim: the serializer never raises (it is a total function
of the modelled value space) and its output is JSON-safe for every input
built without numpy/pandas wrappers, without infinities, and without NaN
in dict-key position; Python-float NaN values in value position are
mapped to null as claimed. -/
theorem C3_theorem (v : PyVal) (h : serializableInput v = true) :
    jsonSafe (make_serializable v) = true :=
  serSafeVal v h

/-- C3 witness: a nested NaN-bearing structure is serialized to a
JSON-safe tree. -/
theorem C3_witness :
    serializableInput
        (.pyDict [(.pyStr "a", .pyList [.pyNan, .pyTuple [.pyInt 3], .pyNone])]) = true ∧
      jsonSafe (make_serializable
        (.pyDict [(.pyStr "a", .pyList [.pyNan, .pyTuple [.pyInt 3], .pyNone])])) = true :=
  ⟨rfl, C3_theorem (.pyDict [(.pyStr "a", .pyList [.pyNan, .pyTuple [.pyInt 3], .pyNone])]) rfl⟩

/-- C3 counterexample: `float('inf')` is returned unchanged — the output
of the Result Normalizer can contain Infinity, contradicting the claim
that the output tree is free of infinities for every input. -/
theorem C3_counterexample :
    make_serializable PyVal.pyInf = PyVal.pyInf ∧
      jsonSafe (make_serializable PyVal.pyInf) = false :=
  ⟨rfl, rfl⟩

/-! ## Claim C8 — Result Normalizer idempotence -/

mutual

theorem serIdemVal (v : PyVal) (h : plainVal v = true) :
    make_serializable (make_serializable v) = make_serializable v := by
  cases v with
  | pyList xs =>
    simp only [make_serializable]
    rw [serIdemList xs (by simpa [plainVal] using h)]
  | pyTuple xs =>
    simp only [make_serializable]
    rw [serIdemList xs (by simpa [plainVal] using h)]
  | pyDict xs =>
    simp only [make_serializable]
    rw [serIdemKVs xs (by simpa [plainVal] using h)]
  | pyNone => rfl
  | pyInt n => rfl
  | pyFloat q => rfl
  | pyNan => rfl
  | pyInf => rfl
  | pyNegInf => rfl
  | pyStr s => rfl
  | npInt n => simp [plainVal] at h
  | npFloat q => simp [plainVal] at h
  | npNan => simp [plainVal] at h
  | npInf => simp [plainVal] at h
  | npNegInf => simp [plainVal] at h
  | npArray xs => simp [plainVal] at h
  | pdSeries xs => simp [plainVal] at h
  | pdFrame cols => simp [plainVal] at h

theorem serIdemList (xs : List PyVal) (h : plainList xs = true) :
    serList (serList xs) = serList xs := by
  cases xs with
  | nil => rfl
  | cons v vs =>
    simp only [plainList, Bool.and_eq_true] at h
    simp only [serList]
    rw [serIdemVal v h.1, serIdemList vs h.2]

theorem serIdemKVs (xs : List (PyVal × PyVal)) (h : plainKVs xs = true) :
    serKVs (serKVs xs) = serKVs xs := by
  cases xs with
  | nil => rfl
  | cons kv vs =>
    obtain ⟨k, v⟩ := kv
    simp only [plainKVs, Bool.and_eq_true] at h
    simp only [serKVs]
    rw [serIdemVal v h.1.2, serIdemKVs vs h.2]

end

/-- C8 (corrected): the claim asserts idempotence of the Result
Normalizer for arbitrary inputs, NaN/Infinity-bearing numeric structures
included.  It fails on numpy values: a `np.float64` NaN is converted by
`float(...)` to a Python NaN on the first pass (because the numpy-scalar
branch precedes the `pd.isna` test) and only the second pass maps that
NaN to None.  This theorem proves the amended claim: idempotence holds
for every value built without numpy/pandas wrappers — arbitrary nested
dicts, lists and tuples of Python scalars, NaN and infinities included. -/
theorem C8_theorem (v : PyVal) (h : plainVal v = true) :
    make_serializable (make_serializable v) = make_serializable v :=
  serIdemVal v h

/-- C8 witness: idempotence on a nested NaN/Infinity-bearing plain
structure. -/
theorem C8_witness :
    plainVal (.pyDict [(.pyStr "a", .pyTuple [.pyNan, .pyInf, .pyInt 2])]) = true ∧
      make_serializable (make_serializable
          (.pyDict [(.pyStr "a", .pyTuple [.pyNan, .pyInf, .pyInt 2])])) =
        make_serializable (.pyDict [(.pyStr "a", .pyTuple [.pyNan, .pyInf, .pyInt 2])]) :=
  ⟨rfl, C8_theorem (.pyDict [(.pyStr "a", .pyTuple [.pyNan, .pyInf, .pyInt 2])]) rfl⟩

/-- C8 counterexample: `normalize_result` is not idempotent on a
`np.float64` NaN — one pass yields a Python NaN, two passes yield None. -/
theorem C8_counterexample :
    make_serializable PyVal.npNan = PyVal.pyNan ∧
      make_serializable (make_serializable PyVal.npNan) = PyVal.pyNone ∧
      PyVal.pyNan ≠ PyVal.pyNone :=
  ⟨rfl, rfl, fun h => PyVal.noConfusion h⟩

/-! ## Claim C2 — when the Execution Sandbox fails -/

/-- C2 (corrected): the claim asserts the sandbox fails only when the
procedure throws AND no `analysis_result` exists.  In the code the whole
body sits in one `try`, so a throwing procedure reaches the error
handler even when it had already bound `analysis_result`.  This theorem
proves the amended claim: execution fails exactly when the procedure
throws OR the output variable is absent from the scope, and succeeds
(with the serialized output) otherwise. -/
theorem C2_theorem (procSem : DataFrame → ProcOutcome) (df : DataFrame) :
    execFails (execute_analysis procSem df) = true ↔
      ((procSem (augment_date_parts df)).throws = true ∨
        (procSem (augment_date_parts df)).output = none) := by
  cases h : procSem (augment_date_parts df) with
  | raised msg a =>
    simp [execute_analysis, h, execFails, ProcOutcome.throws, ProcOutcome.output]
  | completed a =>
    cases a with
    | none => simp [execute_analysis, h, execFails, ProcOutcome.throws, ProcOutcome.output]
    | some v => simp [execute_analysis, h, execFails, ProcOutcome.throws, ProcOutcome.output]

/-- C2 witness: the failure characterization instantiated at a concrete
procedure and table. -/
theorem C2_witness :
    execFails (execute_analysis procC2 dfSmall) = true ↔
      ((procC2 (augment_date_parts dfSmall)).throws = true ∨
        (procC2 (augment_date_parts dfSmall)).output = none) :=
  C2_theorem procC2 dfSmall

/-- C2 counterexample: a procedure that binds `analysis_result` and then
raises.  The claim says this execution must return a result; the code
fails it. -/
theorem C2_counterexample :
    execFails (execute_analysis procC2 dfSmall) = true ∧
      (procC2 (augment_date_parts dfSmall)).throws = true ∧
      (procC2 (augment_date_parts dfSmall)).output = some (.pyInt 1) :=
  ⟨rfl, rfl, rfl⟩

/-! ## Claim C9 — the sandbox never mutates the caller's table -/

/-- C9 (confirmed): `_execute_analysis` works on `df.copy()`; with the
heap made explicit (tables in a store, the copy allocated at a fresh
slot, the procedure free to rewrite its own copy arbitrarily), every
pre-existing table — in particular the caller's at index `i` — is
unchanged after the call, whether or not execution succeeded.  The
derived date-part columns therefore exist only on the copy. -/
theorem C9_theorem (store : List DataFrame) (p : Nat)
    (procSem : DataFrame → ProcOutcome × DataFrame) (i : Nat) (h : i < store.length) :
    (execute_analysis_heap store p procSem).1.get? i = store.get? i ∧
      (execute_analysis_heap store p procSem).1.length = store.length + 1 := by
  constructor
  · show ((store ++ [_]).get? i) = store.get? i
    simp only [List.get?_eq_getElem?]
    exact List.getElem?_append_left h
  · simp [execute_analysis_heap]

/-- C9 witness: a concrete store with the caller's table at index 0. -/
theorem C9_witness :
    (execute_analysis_heap [dfSmall] 0 procHeapOk).1.get? 0 = [dfSmall].get? 0 ∧
      (execute_analysis_heap [dfSmall] 0 procHeapOk).1.length = [dfSmall].length + 1 :=
  C9_theorem [dfSmall] 0 procHeapOk 0 (by decide)

/-! ## Claim C10 — visualization transform fabricates data on failure -/

/-- C10 (confirmed): whenever any exception occurs inside
`transform_data_for_visualization` (the body is the `Except`-valued
`transform_body`), the handler returns the fixed fabricated 21-point
series with names "2000" through "2020" and values 10.0, 12.0, ...,
50.0, unrelated to the input: the failure is not raised, not an empty
list, and not signalled to the caller. -/
theorem C10_theorem (raw : RawTable) (analysis : VizAnalysis) (e : String)
    (h : transform_body raw analysis = .error e) :
    transform_data_for_visualization raw analysis =
      [[("name", Cell.str "2000"), ("value", Cell.float 10)],
       [("name", Cell.str "2001"), ("value", Cell.float 12)],
       [("name", Cell.str "2002"), ("value", Cell.float 14)],
       [("name", Cell.str "2003"), ("value", Cell.float 16)],
       [("name", Cell.str "2004"), ("value", Cell.float 18)],
       [("name", Cell.str "2005"), ("value", Cell.float 20)],
       [("name", Cell.str "2006"), ("value", Cell.float 22)],
       [("name", Cell.str "2007"), ("value", Cell.float 24)],
       [("name", Cell.str "2008"), ("value", Cell.float 26)],
       [("name", Cell.str "2009"), ("value", Cell.float 28)],
       [("name", Cell.str "2010"), ("value", Cell.float 30)],
       [("name", Cell.str "2011"), ("value", Cell.float 32)],
       [("name", Cell.str "2012"), ("value", Cell.float 34)],
       [("name", Cell.str "2013"), ("value", Cell.float 36)],
       [("name", Cell.str "2014"), ("value", Cell.float 38)],
       [("name", Cell.str "2015"), ("value", Cell.float 40)],
       [("name", Cell.str "2016"), ("value", Cell.float 42)],
       [("name", Cell.str "2017"), ("value", Cell.float 44)],
       [("name", Cell.str "2018"), ("value", Cell.float 46)],
       [("name", Cell.str "2019"), ("value", Cell.float 48)],
       [("name", Cell.str "2020"), ("value", Cell.float 50)]] := by
  unfold transform_data_for_visualization
  rw [h]
  show vizFallback = _
  decide

/-- C10 witness: a shape-mismatched raw table makes the body raise, and
the transform indeed returns the fabricated series. -/
theorem C10_witness :
    transform_body vizRawBad vizAnalysisW = .error "DataFrame construction failed" ∧
      transform_data_for_visualization vizRawBad vizAnalysisW =
        [[("name", Cell.str "2000"), ("value", Cell.float 10)],
         [("name", Cell.str "2001"), ("value", Cell.float 12)],
         [("name", Cell.str "2002"), ("value", Cell.float 14)],
         [("name", Cell.str "2003"), ("value", Cell.float 16)],
         [("name", Cell.str "2004"), ("value", Cell.float 18)],
         [("name", Cell.str "2005"), ("value", Cell.float 20)],
         [("name", Cell.str "2006"), ("value", Cell.float 22)],
         [("name", Cell.str "2007"), ("value", Cell.float 24)],
         [("name", Cell.str "2008"), ("value", Cell.float 26)],
         [("name", Cell.str "2009"), ("value", Cell.float 28)],
         [("name", Cell.str "2010"), ("value", Cell.float 30)],
         [("name", Cell.str "2011"), ("value", Cell.float 32)],
         [("name", Cell.str "2012"), ("value", Cell.float 34)],
         [("name", Cell.str "2013"), ("value", Cell.float 36)],
         [("name", Cell.str "2014"), ("value", Cell.float 38)],
         [("name", Cell.str "2015"), ("value", Cell.float 40)],
         [("name", Cell.str "2016"), ("value", Cell.float 42)],
         [("name", Cell.str "2017"), ("value", Cell.float 44)],
         [("name", Cell.str "2018"), ("value", Cell.float 46)],
         [("name", Cell.str "2019"), ("value", Cell.float 48)],
         [("name", Cell.str "2020"), ("value", Cell.float 50)]] :=
  ⟨rfl, C10_theorem vizRawBad vizAnalysisW "DataFrame construction failed" rfl⟩

/-! ## Claim C4 — `safe_groupby_agg` -/

theorem nrows_pos_not_empty (df : DataFrame) (h : 1 ≤ df.nrows) : df.isEmpty = false := by
  obtain ⟨cols⟩ := df
  cases cols with
  | nil => simp [DataFrame.nrows] at h
  | cons c rest =>
    simp only [DataFrame.isEmpty, DataFrame.nrows] at h ⊢
    simp only [List.isEmpty_cons, Bool.false_or, beq_eq_false_iff_ne, ne_eq]
    omega

/-- C1 (corrected): the claim says that with at least one data row and a
procedure that raises on every execution, `analyze` still returns a
well-formed response.  In the code `_execute_analysis` converts the
procedure failure into an HTTPException, and the controller's own
`except` re-raises it as HTTP 500: the request is aborted, whatever the
reply oracles would have answered.  This theorem proves the amended
claim: under exactly the hypotheses of the original claim, `analyze`
raises an HTTP 500 error and returns no response. -/
theorem C1_theorem (procSem : String → DataFrame → ProcOutcome)
    (synth : String → DataFrame → DataProfile → Except String AnalysisPackage)
    (genViz genTables : PyVal → DataFrame → Except String (List PyVal))
    (genInterp : String → String → PyVal → String → Except String String)
    (req : AnalyzeRequest)
    (hrows : 1 ≤ (create_dataframe_from_raw (primarySource req)).nrows)
    (hthrows : ∀ s df2, (procSem s df2).throws = true) :
    ∃ m, analyze procSem synth genViz genTables genInterp req = .error ⟨500, m⟩ := by
  have hne : (create_dataframe_from_raw (primarySource req)).isEmpty = false :=
    nrows_pos_not_empty _ hrows
  have hinner : ∃ m, analyzeInner procSem synth genViz genTables genInterp req = .error m := by
    unfold analyzeInner
    simp only [hne, Bool.false_eq_true, if_false]
    rcases hsynth : synth req.message (create_dataframe_from_raw (primarySource req))
        (generate_data_profile (create_dataframe_from_raw (primarySource req))) with e | pkg
    · exact ⟨e, rfl⟩
    · show ∃ m, analyzeExec procSem genViz genTables genInterp req
        (create_dataframe_from_raw (primarySource req)) pkg = .error m
      unfold analyzeExec
      rcases himpl : pkg.implementation with _ | impl
      · exact ⟨"KeyError: implementation", rfl⟩
      · have hth2 := hthrows impl
          (augment_date_parts (create_dataframe_from_raw (primarySource req)))
        obtain ⟨m, a, hout⟩ : ∃ m a, procSem impl
            (augment_date_parts (create_dataframe_from_raw (primarySource req))) =
              .raised m a := by
          cases hpo : procSem impl
              (augment_date_parts (create_dataframe_from_raw (primarySource req))) with
          | raised m a => exact ⟨m, a, rfl⟩
          | completed a =>
            rw [hpo] at hth2
            simp [ProcOutcome.throws] at hth2
        have hexec : execute_analysis (procSem impl)
            (create_dataframe_from_raw (primarySource req)) = .error ⟨m⟩ := by
          simp [execute_analysis, hout]
        show ∃ m2, (match execute_analysis (procSem impl)
              (create_dataframe_from_raw (primarySource req)) with
            | .error e => (Except.error e.message : Except String AnalyzeResponse)
            | .ok result => analyzePresent genViz genTables genInterp req
                (create_dataframe_from_raw (primarySource req)) pkg result) = .error m2
        rw [hexec]
        exact ⟨m, rfl⟩
  obtain ⟨m, hm⟩ := hinner
  refine ⟨m, ?_⟩
  unfold analyze
  rw [hm]

/-- C1 witness: a concrete one-row request with an always-raising
procedure semantics ends in an HTTP 500 error. -/
theorem C1_witness :
    ∃ m, analyze procSemRaise synthFixed oracleVizNone oracleTablesNone oracleInterpFixed
        reqOneRow = .error ⟨500, m⟩ :=
  C1_theorem procSemRaise synthFixed oracleVizNone oracleTablesNone oracleInterpFixed
    reqOneRow (by decide) (fun _ _ => rfl)

/-- C1 counterexample: at the same concrete input the controller returns
`Except.error` with status 500 and the procedure's message — not a
response with non-empty text and `rows_analyzed` metadata, although the
normalized table has one row.  `procSemRaise` raises on every execution
by definition. -/
theorem C1_counterexample :
    analyze procSemRaise synthFixed oracleVizNone oracleTablesNone oracleInterpFixed
        reqOneRow = .error ⟨500, "boom"⟩ ∧
      (create_dataframe_from_raw (primarySource reqOneRow)).nrows = 1 :=
  ⟨rfl, rfl⟩

/-! ## Claim C6 — when a column is coerced to numeric -/

theorem getD_map_lt {α β : Type} (f : α → β) (l : List α) (j : Nat) (h : j < l.length)
    (d : α) (d2 : β) : (l.map f).getD j d2 = f (l.getD j d) := by
  rw [List.getD_eq_getElem?_getD, List.getD_eq_getElem?_getD, List.getElem?_map,
    List.getElem?_eq_getElem h]
  rfl

/-- C6 (corrected): the claim says a column is coerced to numeric exactly
when every NON-NULL value is numeric-shaped, nulls not preventing the
coercion.  In the code the guard applies the shape lambda to every cell:
in an object column a missing value (None or pd.NA from a blank) fails
both isinstance tests, so nulls DO prevent the coercion of string-valued
columns.  This theorem proves the amended characterization for a column
with a unique label: the output column is numeric-typed iff pandas had
already inferred float64 (where NaN cells are float instances and pass),
or inferred int64 with a name that does not trip the datetime heuristic
(np.int64 values fail the lambda, but the column was already numeric),
or it is an object column in which EVERY cell — nulls included — passes
the shape test. -/
theorem C6_theorem (df : DataFrame) (j : Nat) (h : j < df.cols.length)
    (huq : df.cols.countP (fun c2 => c2.name = (df.cols.getD j default).name) = 1) :
    ((coerceColumns df).cols.getD j default).dtype.isNumeric = true ↔
      ((df.cols.getD j default).dtype = .float64 ∨
        ((df.cols.getD j default).dtype = .int64 ∧
          dateNamed (df.cols.getD j default).name = false) ∨
        ((df.cols.getD j default).dtype = .obj ∧
          (df.cols.getD j default).cells.all numericShapedCell = true)) := by
  have hmap : (coerceColumns df).cols.getD j default =
      coerceOne (df.cols.countP (fun c2 => c2.name = (df.cols.getD j default).name))
        (df.cols.getD j default) :=
    getD_map_lt _ df.cols j h default default
  rw [hmap, huq]
  set c := df.cols.getD j default with hc
  unfold coerceOne
  rw [if_neg (by simp)]
  rcases hdt : c.dtype with _ | _ | _ | _
  · -- int64
    rcases hdn : dateNamed c.name with _ | _
    · simp [guardPasses, hdt, coerceNumeric, coerceDatetime, DType.isNumeric, hdn]
    · simp [guardPasses, hdt, coerceNumeric, coerceDatetime, DType.isNumeric, hdn]
  · -- float64
    simp [guardPasses, hdt, coerceNumeric, DType.isNumeric]
  · -- datetime
    rcases hdn : dateNamed c.name with _ | _
    · simp [guardPasses, hdt, coerceNumeric, coerceDatetime, DType.isNumeric, hdn]
    · simp [guardPasses, hdt, coerceNumeric, coerceDatetime, DType.isNumeric, hdn]
  · -- object
    rcases hall : c.cells.all numericShapedCell with _ | _
    · rcases hdn : dateNamed c.name with _ | _
      · simp [guardPasses, hdt, hall, coerceNumeric, coerceDatetime, DType.isNumeric, hdn]
      · simp [guardPasses, hdt, hall, coerceNumeric, coerceDatetime, DType.isNumeric, hdn]
    · rcases h2 : ((c.cells.map toNumericCell).all Cell.isIntC) with _ | _
      · simp [guardPasses, hdt, hall, coerceNumeric, h2, DType.isNumeric]
      · simp [guardPasses, hdt, hall, coerceNumeric, h2, DType.isNumeric]

/-- C6 witness: a unique-labelled int64 column with a non-date name is
numeric after the coercion step, as the characterization demands. -/
theorem C6_witness :
    dfSmall.cols.countP (fun c2 => c2.name = (dfSmall.cols.getD 0 default).name) = 1 ∧
      (((coerceColumns dfSmall).cols.getD 0 default).dtype.isNumeric = true ↔
        ((dfSmall.cols.getD 0 default).dtype = .float64 ∨
          ((dfSmall.cols.getD 0 default).dtype = .int64 ∧
            dateNamed (dfSmall.cols.getD 0 default).name = false) ∨
          ((dfSmall.cols.getD 0 default).dtype = .obj ∧
            (dfSmall.cols.getD 0 default).cells.all numericShapedCell = true))) :=
  ⟨by decide, C6_theorem dfSmall 0 (by decide) (by decide)⟩

/-- C6 counterexample: the column `A` of
`[["A","B"],["1","x"],["","y"]]` has cells `"1"` and a null (from the
blank): every non-null value is numeric-shaped, yet the normalizer
leaves the column non-numeric — the null prevented the coercion,
contradicting the claim. -/
theorem C6_counterexample :
    ((create_dataframe_from_raw
        (.rows [[.str "A", .str "B"], [.str "1", .str "x"], [.str "", .str "y"]])).cols.getD 0
          default).dtype.isNumeric = false ∧
      ((create_dataframe_from_raw
        (.rows [[.str "A", .str "B"], [.str "1", .str "x"], [.str "", .str "y"]])).cols.getD 0
          default).cells.any (fun c => !c.isNull) = true ∧
      ((create_dataframe_from_raw
        (.rows [[.str "A", .str "B"], [.str "1", .str "x"], [.str "", .str "y"]])).cols.getD 0
          default).cells.all (fun c => c.isNull || specNumericShaped c) = true := by
  decide

/-! ## Claim C7 — the correlation block of the profile -/

theorem zip_self_diag {α : Type} (xs : List α) : ∀ p ∈ xs.zip xs, p.1 = p.2 := by
  induction xs with
  | nil => intro p hp; cases hp
  | cons x t ih =>
    intro p hp
    simp only [List.zip_cons_cons] at hp
    rcases List.mem_cons.mp hp with h1 | h2
    · rw [h1]
    · exact ih p h2

theorem pairedVals_self_diag (xs : List Cell) : ∀ p ∈ pairedVals xs xs, p.1 = p.2 := by
  intro p hp
  unfold pairedVals at hp
  rcases List.mem_filterMap.mp hp with ⟨a, ha, hfa⟩
  have hd := zip_self_diag xs a ha
  rw [hd] at hfa
  rcases h2 : a.2.toRat? with _ | q
  · rw [h2] at hfa
    simp at hfa
  · rw [h2] at hfa
    simp only [Option.some.injEq] at hfa
    rw [← hfa]

theorem selfPairs_diag (ps : List (ℚ × ℚ)) (hd : ∀ p ∈ ps, p.1 = p.2) :
    selfPairs ps = ps ∧ sndPairs ps = ps := by
  constructor
  · unfold selfPairs
    have h1 : ∀ p ∈ ps, (p.1, p.1) = id p := by
      rintro ⟨a, b⟩ hp
      have hab : a = b := hd _ hp
      simp [hab]
    rw [List.map_congr_left h1, List.map_id]
  · unfold sndPairs
    have h1 : ∀ p ∈ ps, (p.2, p.2) = id p := by
      rintro ⟨a, b⟩ hp
      have hab : a = b := hd _ hp
      simp [hab]
    rw [List.map_congr_left h1, List.map_id]

theorem sProd_diag_nonneg (ps : List (ℚ × ℚ)) (hd : ∀ p ∈ ps, p.1 = p.2) :
    0 ≤ sProd ps := by
  unfold sProd qSum
  apply List.sum_nonneg
  intro x hx
  rcases List.mem_map.mp hx with ⟨p, hp, hval⟩
  rw [← hval]
  have hmaps : ps.map Prod.snd = ps.map Prod.fst := by
    apply List.map_congr_left
    intro a ha
    rw [hd a ha]
  rw [hmaps, ← hd p hp]
  exact mul_self_nonneg _

theorem round3_one : round3 1 = 1 := by
  unfold round3
  have h1 : ((1 : ℝ) * 1000 + 1 / 2) = 1000 + 1 / 2 := by ring
  have h2 : ⌊((1000 : ℝ) + 1 / 2)⌋ = 1000 := by
    rw [Int.floor_eq_iff]
    norm_num
  rw [h1, h2]
  norm_num

/-- Pearson correlation of a numeric column with itself is exactly 1
whenever the centered square sum over its non-null values is nonzero. -/
theorem pearson_diag (xs : List Cell) (h : sProd (pairedVals xs xs) ≠ 0) :
    pearsonR xs xs = some 1 := by
  have hd := pairedVals_self_diag xs
  obtain ⟨hself, hsnd⟩ := selfPairs_diag (pairedVals xs xs) hd
  have hnonneg : (0 : ℚ) ≤ sProd (pairedVals xs xs) := sProd_diag_nonneg _ hd
  have hne : ¬(pairedVals xs xs = [] ∨
      sProd (selfPairs (pairedVals xs xs)) * sProd (sndPairs (pairedVals xs xs)) = 0) := by
    rw [hself, hsnd]
    push_neg
    constructor
    · intro hnil
      apply h
      rw [hnil]
      rfl
    · exact mul_ne_zero h h
  unfold pearsonR
  rw [if_neg hne, hself, hsnd]
  have hcast : (0 : ℝ) ≤ (sProd (pairedVals xs xs) : ℝ) := by
    exact_mod_cast hnonneg
  have hcne : ((sProd (pairedVals xs xs) : ℝ)) ≠ 0 := by
    exact_mod_cast h
  rw [show ((sProd (pairedVals xs xs) : ℝ) * (sProd (pairedVals xs xs) : ℝ)) =
      (sProd (pairedVals xs xs) : ℝ) * (sProd (pairedVals xs xs) : ℝ) from rfl]
  rw [Real.sqrt_mul_self hcast, div_self hcne, round3_one]

theorem length_flatMap_const {α β : Type} (l : List α) (f : α → List β) (n : Nat)
    (h : ∀ a ∈ l, (f a).length = n) : (l.flatMap f).length = l.length * n := by
  induction l with
  | nil => simp
  | cons x t ih =>
    rw [List.flatMap_cons, List.length_append, h x (by simp),
      ih (fun a ha => h a (by simp [ha])), List.length_cons]
    ring

theorem corrList_length (df : DataFrame) :
    (corrList df).length = (numericCols df).length * (numericCols df).length := by
  unfold corrList
  exact length_flatMap_const _ _ _ (fun a _ => List.length_map _ _)

theorem corrList_diag_mem (df : DataFrame) (c : Column) (hc : c ∈ numericCols df)
    (h : sProd (pairedVals c.cells c.cells) ≠ 0) :
    (CorrPoint.mk c.name c.name (some 1)) ∈ corrList df := by
  unfold corrList
  rw [List.mem_flatMap]
  refine ⟨c, hc, ?_⟩
  rw [List.mem_map]
  exact ⟨c, hc, by rw [pearson_diag c.cells h]⟩

/-- C7 (corrected): the claim says the profile suppresses the
correlation block below two numeric columns and otherwise flattens the
matrix into all n*n ordered pairs with value 1.0 on the diagonal.  The
suppression and the n*n shape hold, but the diagonal is NOT always 1.0:
pandas computes cov/sqrt(var*var), so a constant numeric column (zero
variance) yields NaN on its own diagonal.  This theorem proves the
amended claim: correlation_data stays None below two numeric columns
(and for the empty-table sentinel); with at least two, it is the flat
list of all n*n ordered name pairs, and the diagonal entry of every
numeric column with nonzero centered square sum is exactly 1. -/
theorem C7_theorem (df : DataFrame) :
    ((generate_data_profile df).numeric_columns.length < 2 →
      (generate_data_profile df).correlation_data = none) ∧
    (df.isEmpty = false → 2 ≤ (generate_data_profile df).numeric_columns.length →
      (generate_data_profile df).correlation_data = some (corrList df) ∧
        (corrList df).length =
          (generate_data_profile df).numeric_columns.length *
            (generate_data_profile df).numeric_columns.length ∧
        (∀ c ∈ numericCols df, sProd (pairedVals c.cells c.cells) ≠ 0 →
          (CorrPoint.mk c.name c.name (some 1)) ∈ corrList df)) := by
  constructor
  · intro hlt
    unfold generate_data_profile at hlt ⊢
    by_cases he : df.isEmpty = true
    · simp [he]
    · simp only [he, Bool.false_eq_true, if_false] at hlt ⊢
      simp only [List.length_map] at hlt
      rw [if_neg (by omega)]
  · intro he hge
    unfold generate_data_profile at hge ⊢
    simp only [he, Bool.false_eq_true, if_false] at hge ⊢
    simp only [List.length_map] at hge
    refine ⟨by rw [if_pos hge], ?_, ?_⟩
    · rw [List.length_map]
      exact corrList_length df
    · intro c hc hs
      exact corrList_diag_mem df c hc hs

/-- C7 witness: two non-constant numeric columns produce a correlation
list containing the diagonal entry (A, A, 1). -/
theorem C7_witness :
    (generate_data_profile dfTwoNum).correlation_data = some (corrList dfTwoNum) ∧
      (CorrPoint.mk "A" "A" (some 1)) ∈ corrList dfTwoNum := by
  have h := (C7_theorem dfTwoNum).2 (by decide) (by decide)
  refine ⟨h.1, h.2.2 ⟨"A", .int64, [.int 1, .int 2]⟩ (by decide) ?_⟩
  have hps : pairedVals [Cell.int 1, Cell.int 2] [Cell.int 1, Cell.int 2] =
      [((1 : ℚ), (1 : ℚ)), ((2 : ℚ), (2 : ℚ))] := by decide
  rw [hps]
  simp only [sProd, qMean, qSum, List.map_cons, List.map_nil, List.sum_cons, List.sum_nil,
    List.length_cons, List.length_nil]
  norm_num

/-- C7 counterexample: with numeric columns A = [5, 5] (constant) and
B = [1, 2], the correlation block is produced (two numeric columns), but
its first entry — the diagonal of A — has a NaN value (`none`), not the
claimed 1.0. -/
theorem C7_counterexample :
    (generate_data_profile dfConstCol).numeric_columns.length = 2 ∧
      (generate_data_profile dfConstCol).correlation_data = some (corrList dfConstCol) ∧
      (corrList dfConstCol).head? = some (CorrPoint.mk "A" "A" none) := by
  refine ⟨rfl, rfl, ?_⟩
  have hhead : (corrList dfConstCol).head? =
      some (CorrPoint.mk "A" "A" (pearsonR [Cell.int 5, Cell.int 5] [Cell.int 5, Cell.int 5])) :=
    rfl
  rw [hhead]
  have hps : pairedVals [Cell.int 5, Cell.int 5] [Cell.int 5, Cell.int 5] =
      [((5 : ℚ), (5 : ℚ)), ((5 : ℚ), (5 : ℚ))] := by decide
  have hzero : sProd (selfPairs (pairedVals [Cell.int 5, Cell.int 5] [Cell.int 5, Cell.int 5])) = 0 := by
    rw [hps]
    simp only [sProd, qMean, qSum, selfPairs, List.map_cons, List.map_nil, List.sum_cons,
      List.sum_nil, List.length_cons, List.length_nil]
    norm_num
  unfold pearsonR
  rw [if_pos (Or.inr (by rw [hzero, zero_mul]))]

/-! ## Claim C5 — normalizer totality and the no-all-null invariants -/

theorem addKeys_sub (ks : List String) : ∀ acc, acc ⊆ addKeys acc ks := by
  induction ks with
  | nil => intro acc; exact fun _ h => h
  | cons k' ks' ih =>
    intro acc a ha
    unfold addKeys
    by_cases hc : acc.contains k'
    · rw [if_pos hc]
      exact ih acc ha
    · rw [if_neg hc]
      exact ih (acc ++ [k']) (List.mem_append_left _ ha)

theorem addKeys_mem (ks : List String) : ∀ acc k, k ∈ ks → k ∈ addKeys acc ks := by
  induction ks with
  | nil => intro acc k hk; cases hk
  | cons k' ks' ih =>
    intro acc k hk
    unfold addKeys
    rcases List.mem_cons.mp hk with h1 | h2
    · by_cases hc : acc.contains k'
      · rw [if_pos hc, h1]
        exact addKeys_sub ks' acc (List.mem_of_elem_eq_true hc)
      · rw [if_neg hc, h1]
        exact addKeys_sub ks' (acc ++ [k']) (List.mem_append_right _ (List.mem_singleton.mpr rfl))
    · by_cases hc : acc.contains k'
      · rw [if_pos hc]
        exact ih acc k h2
      · rw [if_neg hc]
        exact ih (acc ++ [k']) k h2

theorem recKeys_mem_aux (rs : List (List (String × Cell))) :
    ∀ acc k, (k ∈ acc ∨ ∃ r ∈ rs, k ∈ r.map Prod.fst) →
      k ∈ rs.foldl (fun a r => addKeys a (r.map Prod.fst)) acc := by
  induction rs with
  | nil =>
    intro acc k hk
    rcases hk with h | ⟨r, hr, _⟩
    · exact h
    · cases hr
  | cons r rs' ih =>
    intro acc k hk
    rw [List.foldl_cons]
    rcases hk with h | ⟨r0, hr0, hkr⟩
    · exact ih _ k (Or.inl (addKeys_sub _ acc h))
    · rcases List.mem_cons.mp hr0 with h1 | h2
      · exact ih _ k (Or.inl (addKeys_mem _ acc k (h1 ▸ hkr)))
      · exact ih _ k (Or.inr ⟨r0, h2, hkr⟩)

theorem recKeys_mem (rs : List (List (String × Cell))) (r : List (String × Cell))
    (hr : r ∈ rs) (k : String) (hk : k ∈ r.map Prod.fst) : k ∈ recKeys rs :=
  recKeys_mem_aux rs [] k (Or.inr ⟨r, hr, hk⟩)

theorem dedupKeysAux_nodup (l : List (String × Cell)) :
    ∀ seen, ((dedupKeysAux seen l).map Prod.fst).Nodup ∧
      ∀ k ∈ (dedupKeysAux seen l).map Prod.fst, k ∉ seen := by
  induction l with
  | nil => intro seen; exact ⟨List.nodup_nil, by intro k hk; cases hk⟩
  | cons kv rest ih =>
    intro seen
    unfold dedupKeysAux
    by_cases hc : seen.contains kv.1
    · rw [if_pos hc]
      exact ih seen
    · rw [if_neg hc]
      obtain ⟨hnd, hout⟩ := ih (seen ++ [kv.1])
      constructor
      · rw [List.map_cons]
        refine List.nodup_cons.mpr ⟨?_, hnd⟩
        intro hmem
        exact hout kv.1 hmem (List.mem_append_right _ (List.mem_singleton.mpr rfl))
      · rw [List.map_cons]
        intro k hk hkseen
        rcases List.mem_cons.mp hk with h1 | h2
        · exact hc (List.elem_eq_true_of_mem (h1 ▸ hkseen))
        · exact hout k h2 (List.mem_append_left _ hkseen)

theorem lookup_of_mem_nodup (r : List (String × Cell)) (kv : String × Cell)
    (hmem : kv ∈ r) (hnd : (r.map Prod.fst).Nodup) : r.lookup kv.1 = some kv.2 := by
  induction r with
  | nil => cases hmem
  | cons kv' rest ih =>
    rw [List.map_cons, List.nodup_cons] at hnd
    rcases List.mem_cons.mp hmem with h1 | h2
    · rw [h1]
      simp [List.lookup]
    · have hne : kv.1 ≠ kv'.1 := by
        intro heq
        exact hnd.1 (heq ▸ List.mem_map_of_mem Prod.fst h2)
      have hbeq : (kv.1 == kv'.1) = false := beq_eq_false_iff_ne.mpr hne
      simp only [List.lookup, hbeq]
      exact ih h2 hnd.2

theorem recView_lookup (r0 : List (String × Cell)) (kv : String × Cell)
    (hmem : kv ∈ recView r0) : (recView r0).lookup kv.1 = some kv.2 :=
  lookup_of_mem_nodup _ kv hmem (dedupKeysAux_nodup r0 []).1

/-- Every extracted row is as wide as the column-name list. -/
theorem extract_rect (raw : RawTable) :
    ∀ r ∈ (extractRaw raw).2, r.length = (extractRaw raw).1.length := by
  rcases raw with rs | rs
  · rcases rs with _ | ⟨headers, data⟩
    · intro r hr; cases hr
    · intro r hr
      simp only [extractRaw, extractRows] at hr ⊢
      rcases List.mem_filter.mp hr with ⟨hr2, _⟩
      rcases List.mem_map.mp hr2 with ⟨r0, _, hr0⟩
      rw [← hr0, List.length_map, List.length_map]
  · intro r hr
    simp only [extractRaw, extractRecords] at hr ⊢
    rcases List.mem_map.mp hr with ⟨r0, _, hr0⟩
    rw [← hr0, List.length_map]

/-- Every extracted row keeps at least one non-blank cell. -/
theorem extract_nonblank (raw : RawTable) :
    ∀ r ∈ (extractRaw raw).2, r.any (fun c => !c.isBlank) = true := by
  rcases raw with rs | rs
  · rcases rs with _ | ⟨headers, data⟩
    · intro r hr; cases hr
    · intro r hr
      simp only [extractRaw, extractRows] at hr
      exact (List.mem_filter.mp hr).2
  · intro r hr
    simp only [extractRaw, extractRecords] at hr
    rcases List.mem_map.mp hr with ⟨r0, hr0mem, hr0⟩
    rcases List.mem_filter.mp hr0mem with ⟨hr0v, hany⟩
    rcases List.any_eq_true.mp hany with ⟨kv, hkv, hnb⟩
    have hk : kv.1 ∈ recKeys ((rs.map recView).filter
        (fun r2 => r2.any (fun kv2 => !kv2.2.isBlank))) :=
      recKeys_mem _ r0 hr0mem kv.1 (List.mem_map_of_mem Prod.fst hkv)
    rcases List.mem_map.mp hr0v with ⟨rOrig, _, hview⟩
    have hlk : r0.lookup kv.1 = some kv.2 := by
      rw [← hview]
      rw [← hview] at hkv
      exact recView_lookup rOrig kv hkv
    rw [← hr0]
    apply List.any_eq_true.mpr
    refine ⟨kv.2, ?_, hnb⟩
    apply List.mem_map.mpr
    exact ⟨kv.1, hk, by rw [hlk]; rfl⟩

/-- A cell that is not blank stays non-null after blank-string
replacement. -/
theorem blankToNull_nonblank (c : Cell) (h : (!c.isBlank) = true) :
    (!(blankToNull c).isNull) = true := by
  cases c with
  | null => simp [Cell.isBlank] at h
  | str s =>
    simp only [Cell.isBlank, Bool.not_eq_true'] at h
    unfold blankToNull
    rw [if_neg ?_]
    · rfl
    · intro heq
      injection heq with hs
      rw [hs] at h
      simp [blankStr, trimChars] at h
  | int n => rfl
  | float q => rfl
  | date y m d => rfl

theorem cleanCore_invariants (names0 : List String) (dtypes0 : List DType)
    (rows0 : List (List Cell)) (hrect : ∀ r ∈ rows0, r.length = names0.length) :
    noAllNullRow (cleanCore names0 dtypes0 rows0).2.2 = true ∧
      noAllNullColAt (cleanCore names0 dtypes0 rows0).1.length
        (cleanCore names0 dtypes0 rows0).2.2 = true := by
  constructor
  · apply List.all_eq_true.mpr
    intro r2 hr2
    have hr2m : r2 ∈ (cleanRows rows0).map (fun r =>
        (liveCols names0.length (cleanRows rows0)).map (fun j => r.getD j .null)) := hr2
    rcases List.mem_map.mp hr2m with ⟨r1, hr1, hproj⟩
    have hr1f := List.mem_filter.mp hr1
    rcases List.any_eq_true.mp hr1f.2 with ⟨c, hcmem, hcnn⟩
    rcases List.mem_iff_getElem.mp hcmem with ⟨j0, hj0lt, hj0get⟩
    have hr1len : r1.length = names0.length := by
      rcases List.mem_map.mp hr1f.1 with ⟨r0, hr0, hr0eq⟩
      rw [← hr0eq, List.length_map]
      exact hrect r0 hr0
    have hj0names : j0 < names0.length := hr1len ▸ hj0lt
    have hgetD : r1.getD j0 .null = c := by
      rw [List.getD_eq_getElem?_getD, List.getElem?_eq_getElem hj0lt, hj0get]
      rfl
    have hj0keep : j0 ∈ liveCols names0.length (cleanRows rows0) := by
      apply List.mem_filter.mpr
      refine ⟨List.mem_range.mpr hj0names, ?_⟩
      apply List.any_eq_true.mpr
      exact ⟨r1, hr1, by rw [hgetD]; exact hcnn⟩
    apply List.any_eq_true.mpr
    refine ⟨c, ?_, hcnn⟩
    rw [← hproj]
    apply List.mem_map.mpr
    exact ⟨j0, hj0keep, hgetD⟩
  · apply List.all_eq_true.mpr
    intro j hj
    have hjlen : j < (liveCols names0.length (cleanRows rows0)).length := by
      have hlen : (cleanCore names0 dtypes0 rows0).1.length =
          (liveCols names0.length (cleanRows rows0)).length := by
        show (((liveCols names0.length (cleanRows rows0)).map _).map renameCol).length = _
        rw [List.length_map, List.length_map]
      rw [List.mem_range, hlen] at hj
      exact hj
    have hj0mem : (liveCols names0.length (cleanRows rows0)).getD j 0 ∈
        liveCols names0.length (cleanRows rows0) := by
      rw [List.getD_eq_getElem?_getD, List.getElem?_eq_getElem hjlen]
      exact List.getElem_mem hjlen
    have hpred := (List.mem_filter.mp hj0mem).2
    rcases List.any_eq_true.mp hpred with ⟨r1, hr1, hnn⟩
    apply List.any_eq_true.mpr
    refine ⟨(liveCols names0.length (cleanRows rows0)).map (fun j2 => r1.getD j2 .null),
      ?_, ?_⟩
    · exact List.mem_map_of_mem _ hr1
    · rw [getD_map_lt (fun j2 => r1.getD j2 .null) _ j hjlen 0 .null]
      exact hnn

/-- C5 (corrected): the claim says `_create_dataframe_from_raw` never
raises and returns a table with no all-null row and no all-null column.
Totality holds (the model is a total function, matching the `try` that
returns an empty frame), and the invariants hold at the cleaned stage —
right after the blank-replacement and the two dropna passes — for every
raw input, which is what this theorem proves.  But the claim as stated
is false: the type-coercion step that follows can null every cell of a
date-named column whose values fail datetime parsing, reintroducing
all-null columns (and rows) into the returned table. -/
theorem C5_theorem (raw : RawTable) :
    noAllNullRow (cleanedStage raw).2.2 = true ∧
      noAllNullColAt (cleanedStage raw).1.length (cleanedStage raw).2.2 = true ∧
      create_dataframe_from_raw raw =
        (if (assembleDF (extractRaw raw).1
            (inferredDTypes (extractRaw raw).1 (extractRaw raw).2) (extractRaw raw).2).isEmpty
        then assembleDF (extractRaw raw).1
            (inferredDTypes (extractRaw raw).1 (extractRaw raw).2) (extractRaw raw).2
        else coerceColumns
            (assembleDF (cleanedStage raw).1 (cleanedStage raw).2.1 (cleanedStage raw).2.2)) :=
  ⟨(cleanCore_invariants _ _ _ (extract_rect raw)).1,
   (cleanCore_invariants _ _ _ (extract_rect raw)).2, rfl⟩

/-- C5 witness: the invariants instantiated at the spec's all-blank-row
scenario input. -/
theorem C5_witness :
    noAllNullRow (cleanedStage
        (.rows [[.str "A", .str "B"], [.str "", .str "  "], [.str "1", .str "2"]])).2.2 = true ∧
      noAllNullColAt (cleanedStage
          (.rows [[.str "A", .str "B"], [.str "", .str "  "], [.str "1", .str "2"]])).1.length
        (cleanedStage
          (.rows [[.str "A", .str "B"], [.str "", .str "  "], [.str "1", .str "2"]])).2.2 = true ∧
      create_dataframe_from_raw
          (.rows [[.str "A", .str "B"], [.str "", .str "  "], [.str "1", .str "2"]]) =
        (if (assembleDF
            (extractRaw (.rows [[.str "A", .str "B"], [.str "", .str "  "], [.str "1", .str "2"]])).1
            (inferredDTypes
              (extractRaw (.rows [[.str "A", .str "B"], [.str "", .str "  "], [.str "1", .str "2"]])).1
              (extractRaw (.rows [[.str "A", .str "B"], [.str "", .str "  "], [.str "1", .str "2"]])).2)
            (extractRaw (.rows [[.str "A", .str "B"], [.str "", .str "  "], [.str "1", .str "2"]])).2).isEmpty
        then assembleDF
            (extractRaw (.rows [[.str "A", .str "B"], [.str "", .str "  "], [.str "1", .str "2"]])).1
            (inferredDTypes
              (extractRaw (.rows [[.str "A", .str "B"], [.str "", .str "  "], [.str "1", .str "2"]])).1
              (extractRaw (.rows [[.str "A", .str "B"], [.str "", .str "  "], [.str "1", .str "2"]])).2)
            (extractRaw (.rows [[.str "A", .str "B"], [.str "", .str "  "], [.str "1", .str "2"]])).2
        else coerceColumns
            (assembleDF
              (cleanedStage (.rows [[.str "A", .str "B"], [.str "", .str "  "], [.str "1", .str "2"]])).1
              (cleanedStage (.rows [[.str "A", .str "B"], [.str "", .str "  "], [.str "1", .str "2"]])).2.1
              (cleanedStage (.rows [[.str "A", .str "B"], [.str "", .str "  "], [.str "1", .str "2"]])).2.2)) :=
  C5_theorem (.rows [[.str "A", .str "B"], [.str "", .str "  "], [.str "1", .str "2"]])

/-- C5 counterexample: the raw table `[["day"],["foo"]]` normalizes to a
single datetime column whose only cell is null (the string "foo" fails
datetime parsing and the column name trips the date heuristic), so the
returned table has both an all-null column and an all-null row. -/
theorem C5_counterexample :
    create_dataframe_from_raw (.rows [[.str "day"], [.str "foo"]]) =
        ⟨[⟨"day", .datetime, [.null]⟩]⟩ ∧
      dfHasAllNullCol (create_dataframe_from_raw (.rows [[.str "day"], [.str "foo"]])) = true ∧
      dfHasAllNullRow (create_dataframe_from_raw (.rows [[.str "day"], [.str "foo"]])) = true := by
  decide

end Darwin
